import Mathlib

/-!
# The control core of the BLDC controller firmware

A shallow embedding of `firmware/src/control.cpp` (namespace `motor_driver`) and theorems
about it.

Conventions of the embedding.

* `float` values are elements of an arbitrary linear ordered field `F`; every arithmetic
  operation is exact.  The constant `pi` and the other constants of `constants.h` are
  fields of `Env`, because their declarations are not part of `control.cpp`.
* The global objects `calibration`, `parameters`, `results`, the four `PID` objects, the
  static `last_control_timeout_reset` and the function-static `cycles_since_update` are the
  fields of `State`.
* The `PID` class is external.  A PID object is a value of an arbitrary type `P`, and the
  methods `control.cpp` calls on it are the fields of `PIDOps`.
* Every call on an external object (PID, gate driver, recorder, encoders) is also appended
  to `State.trace`, in program order, so that "method m is (not) invoked" is a statement
  about the trace.
* What the hardware supplies in one control cycle (clock reading, encoder replies, ADC
  buffer) is a `CycleInput`.
-/

namespace motor_driver

/-! ## Data model -/

/-- Modelled from the spec: the control mode constants `control_mode_*` are declared outside
`control.cpp`; the spec lists the modes `RawPwm`, `DirectDriveVoltage`, `FocCurrent`,
`Torque`, `Velocity`, `Position`, `PositionVelocity` as mutually exclusive. -/
inductive ControlMode where
  | control_mode_raw_phase_pwm
  | control_mode_pwm_drive
  | control_mode_foc_current
  | control_mode_torque
  | control_mode_velocity
  | control_mode_position
  | control_mode_position_velocity
  deriving DecidableEq, Repr

/-- Values of `results.encoder_mode` that `control.cpp` distinguishes: the two named constants
and any other value (the final `else` of the encoder dispatch). -/
inductive EncoderMode where
  | encoder_mode_as5047d
  | encoder_mode_mlx90363
  | encoder_mode_other
  deriving DecidableEq, Repr

/-- The two arguments `control.cpp` passes to `PID::setMode`. -/
inductive PIDMode where
  | MANUAL_MODE
  | AUTO_MODE
  deriving DecidableEq, Repr

/-- The four static PID objects of `control.cpp`. -/
inductive PIDName where
  | pid_id
  | pid_iq
  | pid_velocity
  | pid_position
  deriving DecidableEq, Repr

/-- A method call on a PID object, with its arguments. -/
inductive PIDCall (F : Type) where
  | setMode (m : PIDMode)
  | setTunings (kp ki kd : F)
  | setInputLimits (lo hi : F)
  | setOutputLimits (lo hi : F)
  | setSetPoint (sp : F)
  | setProcessValue (pv : F)
  | setBias (b : F)
  | compute
  deriving DecidableEq, Repr

/-- A call on an external object, as recorded in the trace. -/
inductive Call (F : Type) where
  | pid (which : PIDName) (c : PIDCall F)
  | setPWMDutyCycle (channel : Nat) (duty : F)
  | recordSample (ia ib ic va vb vc vin rotor_pos rotor_vel : F)
  | as5047d_getPipelinedRegisterReadResultI
  | as5047d_startPipelinedRegisterReadI (reg : Nat)
  | mlx90363_getAsyncExchangeMessageResultI
  | mlx90363_startAsyncExchangeMessageI
  deriving DecidableEq, Repr

/-- The methods of the external `PID` class that `control.cpp` calls, on an abstract object
type `P`.  `compute` returns the output and the updated object. -/
structure PIDOps (F P : Type) where
  setMode : P → PIDMode → P
  setTunings : P → F → F → F → P
  setInputLimits : P → F → F → P
  setOutputLimits : P → F → F → P
  setSetPoint : P → F → P
  setProcessValue : P → F → P
  setBias : P → F → P
  compute : P → F × P

/-- Constants, macros and pure helper functions that `control.cpp` uses and that are declared
elsewhere (`constants.h`, `ch.h`, `transforms.h`, `fast_math.h`, `SVM.h`, `peripherals.h`). -/
structure Env (F : Type) where
  pi : F
  rad_per_enc_tick : F
  encoder_period : Nat
  current_control_freq : F
  /-- `MS2ST(msec)`: milliseconds to system ticks. -/
  MS2ST : Nat → Nat
  /-- Number of values of the unsigned type `systime_t`. -/
  systime_mod : Nat
  /-- Number of values of the type `unsigned int`. -/
  uint_mod : Nat
  ivsense_adc_samples_count : Nat
  ivsense_samples_per_cycle : F
  ivsense_channel_count : Nat
  ivsense_channel_ia : Nat
  ivsense_channel_ib : Nat
  ivsense_channel_ic : Nat
  ivsense_channel_va : Nat
  ivsense_channel_vb : Nat
  ivsense_channel_vc : Nat
  ivsense_channel_vin : Nat
  adcValueToCurrent : F → F
  adcValueToVoltage : F → F
  /-- Evaluation of the `LUTFunction` built over `calibration.enc_ang_corr_table_values`. -/
  enc_ang_corr_table : List Int → F → F
  transformClarke : F → F → F → F × F
  transformPark : F → F → F → F → F × F
  transformInversePark : F → F → F → F → F × F
  fast_cos : F → F
  fast_sin : F → F
  /-- The method `modulator.computeDutyCycles`, returning `(duty0, duty1, duty2)`. -/
  computeDutyCycles : F → F → F × F × F

/-- The fields of the global `calibration` that `control.cpp` reads or writes. -/
structure Calibration (F : Type) where
  control_timeout : Nat
  enc_ang_corr_scale : F
  enc_ang_corr_offset : F
  enc_ang_corr_table_values : List Int
  position_offset : F
  velocity_filter_param : F
  position_kp : F
  position_ki : F
  velocity_limit : F
  velocity_kp : F
  velocity_ki : F
  torque_limit : F
  flip_phases : Bool
  erev_start : Nat
  erevs_per_mrev : Nat
  foc_kp_d : F
  foc_ki_d : F
  foc_kp_q : F
  foc_ki_q : F
  motor_torque_const : F
  motor_resistance : F

/-- The fields of the global `parameters` that `control.cpp` reads or writes. -/
structure Parameters (F : Type) where
  control_mode : ControlMode
  position_sp : F
  velocity_sp : F
  torque_sp : F
  foc_d_current_sp : F
  foc_q_current_sp : F
  phase0 : F
  phase1 : F
  phase2 : F
  pwm_drive : F

/-- The fields of the global `results` that `control.cpp` reads or writes.  `raw_enc_value`
is a `uint16_t`; `rotor_revs` is an integer counter, taken without overflow. -/
structure Results (F : Type) where
  encoder_mode : EncoderMode
  raw_enc_value : Nat
  enc_pos : F
  rotor_revs : Int
  rotor_pos : F
  rotor_vel : F
  average_ia : F
  average_ib : F
  average_ic : F
  average_va : F
  average_vb : F
  average_vc : F
  average_vin : F
  foc_d_current : F
  foc_q_current : F

/-- The mutable state of `control.cpp`. -/
structure State (F P : Type) where
  calibration : Calibration F
  parameters : Parameters F
  results : Results F
  pid_id : P
  pid_iq : P
  pid_velocity : P
  pid_position : P
  last_control_timeout_reset : Nat
  cycles_since_update : Int
  trace : List (Call F)

/-- What the hardware supplies during one control cycle. -/
structure CycleInput (F : Type) where
  /-- The value `chTimeNow()` returns at the watchdog check. -/
  now : Nat
  /-- The value `encoder_as5047d.getPipelinedRegisterReadResultI()` returns. -/
  as5047d_result : Nat
  /-- Whether `encoder_mlx90363.parseAlphaMessage` returns `MLX90363_STATUS_OK`. -/
  mlx90363_status_ok : Bool
  /-- The angle `encoder_mlx90363.parseAlphaMessage` stores through its `uint16_t` pointer. -/
  mlx90363_alpha : Nat
  /-- The buffer `ivsense_adc_samples_ptr`, by index. -/
  ivsense_adc_samples : Nat → Nat

section Defs

variable {F P : Type} [LinearOrderedField F]

/-! ## Watchdog -/

/-- The function `brakeMotor` (lines 368-373). -/
def brakeMotor (s : State F P) : State F P :=
  { s with
    parameters :=
      { s.parameters with
        foc_d_current_sp := 0
        foc_q_current_sp := 0
        control_mode := ControlMode.control_mode_foc_current }
    calibration := { s.calibration with motor_torque_const := 0 } }

/-- The function `resetControlTimeout` (lines 364-366); `now` is what `chTimeNow()` returns. -/
def resetControlTimeout (now : Nat) (s : State F P) : State F P :=
  { s with last_control_timeout_reset := now }

/-- The unsigned difference `chTimeNow() - last_control_timeout_reset` in `systime_t`. -/
def elapsedTicks (env : Env F) (now last : Nat) : Nat :=
  (((now : Int) - (last : Int)) % (env.systime_mod : Int)).toNat

/-- The condition of the `if` at line 93. -/
def watchdogExpired (env : Env F) (now : Nat) (s : State F P) : Bool :=
  decide (s.calibration.control_timeout ≠ 0) &&
    decide (env.MS2ST s.calibration.control_timeout ≤
      elapsedTicks env now s.last_control_timeout_reset)

/-- The watchdog check at the start of a control cycle (lines 93-95). -/
def watchdogCheck (env : Env F) (now : Nat) (s : State F P) : State F P :=
  if watchdogExpired env now s then brakeMotor s else s

/-! ## State estimation -/

/-- The function `getEncoderAngleCorrection` (lines 40-46). -/
def getEncoderAngleCorrection (env : Env F) (c : Calibration F) (raw_enc_pos : F) : F :=
  if c.enc_ang_corr_scale ≠ 0 then
    env.enc_ang_corr_table c.enc_ang_corr_table_values raw_enc_pos * c.enc_ang_corr_scale
      + c.enc_ang_corr_offset
  else
    0

/-- Truncation of an integer to `uint16_t`. -/
def toUInt16 (x : Int) : Nat :=
  (x % 65536).toNat

/-- The MLX90363 branch refreshes in this cycle: the condition of the `if` at line 125. -/
def mlxRefresh (s : State F P) : Bool :=
  decide (20 ≤ s.cycles_since_update)

/-- The local `raw_enc_value` at line 157, after the encoder dispatch (lines 112-155). -/
def readRawEncValue (env : Env F) (inp : CycleInput F) (s : State F P) : Nat :=
  match s.results.encoder_mode with
  | EncoderMode.encoder_mode_as5047d => toUInt16 inp.as5047d_result
  | EncoderMode.encoder_mode_mlx90363 =>
    if mlxRefresh s then
      let raw_enc_value := toUInt16 inp.mlx90363_alpha
      let raw_enc_value := toUInt16 ((env.encoder_period : Int) - (raw_enc_value : Int))
      if inp.mlx90363_status_ok = false then s.results.raw_enc_value else raw_enc_value
    else
      s.results.raw_enc_value
  | EncoderMode.encoder_mode_other => 0

/-- The function-static `cycles_since_update` after the encoder dispatch (lines 122-152). -/
def nextCyclesSinceUpdate (s : State F P) : Int :=
  match s.results.encoder_mode with
  | EncoderMode.encoder_mode_mlx90363 => (if mlxRefresh s then 0 else s.cycles_since_update) + 1
  | _ => s.cycles_since_update

/-- The calls on the encoder objects made by the encoder dispatch (lines 114-155). -/
def encoderCalls (s : State F P) : List (Call F) :=
  match s.results.encoder_mode with
  | EncoderMode.encoder_mode_as5047d =>
    [Call.as5047d_getPipelinedRegisterReadResultI, Call.as5047d_startPipelinedRegisterReadI 0x3fff]
  | EncoderMode.encoder_mode_mlx90363 =>
    if mlxRefresh s then
      [Call.mlx90363_getAsyncExchangeMessageResultI, Call.mlx90363_startAsyncExchangeMessageI]
    else []
  | EncoderMode.encoder_mode_other => []

/-- The local `enc_pos` (lines 159-160) for a given `raw_enc_value`. -/
def encPosOf (env : Env F) (c : Calibration F) (raw_enc_value : Nat) : F :=
  let raw_enc_pos : F := (raw_enc_value : F) * env.rad_per_enc_tick
  raw_enc_pos + getEncoderAngleCorrection env c raw_enc_pos

/-- The revolution unwrapping of lines 166-172: from the revolution count and the local
`enc_pos_diff` of line 165 to the updated count and the normalized `enc_pos_diff`. -/
def unwrapStep (env : Env F) (rotor_revs : Int) (enc_pos_diff : F) : Int × F :=
  if enc_pos_diff < -env.pi then
    (rotor_revs + 1, enc_pos_diff + 2 * env.pi)
  else if enc_pos_diff > env.pi then
    (rotor_revs - 1, enc_pos_diff - 2 * env.pi)
  else
    (rotor_revs, enc_pos_diff)

/-- The local `enc_pos_diff` at line 165, before normalization. -/
def rawEncPosDiff (env : Env F) (inp : CycleInput F) (s : State F P) : F :=
  encPosOf env s.calibration (readRawEncValue env inp s) - s.results.enc_pos

/-- The local `enc_pos_diff` at line 176, after normalization. -/
def normEncPosDiff (env : Env F) (inp : CycleInput F) (s : State F P) : F :=
  (unwrapStep env s.results.rotor_revs (rawEncPosDiff env inp s)).2

/-- One of the accumulators `adc_*_sum` after the loop of lines 194-202, for the channel with
offset `ch`; the additions are those of `unsigned int`. -/
def adcSum (env : Env F) (samples : Nat → Nat) (ch : Nat) : Nat :=
  (List.range env.ivsense_adc_samples_count).foldl
    (fun acc i => (acc + samples (i * env.ivsense_channel_count + ch)) % env.uint_mod) 0

/-- The argument of `adcValueToCurrent` / `adcValueToVoltage` at lines 204-210. -/
def adcAverage (env : Env F) (samples : Nat → Nat) (ch : Nat) : F :=
  (adcSum env samples ch : F) / env.ivsense_samples_per_cycle

/-- The function `estimateState` (lines 107-229). -/
def estimateState (env : Env F) (inp : CycleInput F) (s : State F P) : State F P :=
  let raw_enc_value := readRawEncValue env inp s
  let enc_pos := encPosOf env s.calibration raw_enc_value
  let prev_enc_pos := s.results.enc_pos
  let enc_pos_diff := enc_pos - prev_enc_pos
  let u := unwrapStep env s.results.rotor_revs enc_pos_diff
  let rotor_revs := u.1
  let enc_pos_diff := u.2
  let rotor_pos := enc_pos + (rotor_revs : F) * 2 * env.pi - s.calibration.position_offset
  let rotor_vel_update := enc_pos_diff * env.current_control_freq
  let alpha := s.calibration.velocity_filter_param
  let rotor_vel := alpha * rotor_vel_update + (1 - alpha) * s.results.rotor_vel
  let average_ia := env.adcValueToCurrent (adcAverage env inp.ivsense_adc_samples env.ivsense_channel_ia)
  let average_ib := env.adcValueToCurrent (adcAverage env inp.ivsense_adc_samples env.ivsense_channel_ib)
  let average_ic := env.adcValueToCurrent (adcAverage env inp.ivsense_adc_samples env.ivsense_channel_ic)
  let average_va := env.adcValueToVoltage (adcAverage env inp.ivsense_adc_samples env.ivsense_channel_va)
  let average_vb := env.adcValueToVoltage (adcAverage env inp.ivsense_adc_samples env.ivsense_channel_vb)
  let average_vc := env.adcValueToVoltage (adcAverage env inp.ivsense_adc_samples env.ivsense_channel_vc)
  let average_vin := env.adcValueToVoltage (adcAverage env inp.ivsense_adc_samples env.ivsense_channel_vin)
  { s with
    cycles_since_update := nextCyclesSinceUpdate s
    results :=
      { s.results with
        raw_enc_value := raw_enc_value
        enc_pos := enc_pos
        rotor_revs := rotor_revs
        rotor_pos := rotor_pos
        rotor_vel := rotor_vel
        average_ia := average_ia
        average_ib := average_ib
        average_ic := average_ic
        average_va := average_va
        average_vb := average_vb
        average_vc := average_vc
        average_vin := average_vin }
    trace := s.trace ++ encoderCalls s ++
      [Call.recordSample average_ia average_ib average_ic average_va average_vb average_vc
        average_vin rotor_pos rotor_vel] }

/-! ## Position and velocity loops -/

/-- The condition of the `if` at line 232. -/
def positionActive (m : ControlMode) : Bool :=
  decide (m = ControlMode.control_mode_position ∨ m = ControlMode.control_mode_position_velocity)

/-- The condition of the `if` at line 247. -/
def velocityActive (m : ControlMode) : Bool :=
  decide (m = ControlMode.control_mode_velocity ∨ m = ControlMode.control_mode_position ∨
    m = ControlMode.control_mode_position_velocity)

/-- The PID object `pid_position` just before `compute` is called on it (lines 233-239). -/
def positionPIDConfigured (ops : PIDOps F P) (s : State F P) : P :=
  let p := ops.setMode s.pid_position PIDMode.AUTO_MODE
  let p := ops.setTunings p s.calibration.position_kp s.calibration.position_ki 0
  let p := ops.setInputLimits p (-1) 1
  let p := ops.setOutputLimits p (-s.calibration.velocity_limit) s.calibration.velocity_limit
  let p := ops.setSetPoint p 0
  let p := ops.setProcessValue p (s.results.rotor_pos - s.parameters.position_sp)
  ops.setBias p 0

/-- The function `runPositionControl` (lines 231-244). -/
def runPositionControl (ops : PIDOps F P) (s : State F P) : State F P :=
  if positionActive s.parameters.control_mode then
    let r := ops.compute (positionPIDConfigured ops s)
    { s with
      pid_position := r.2
      parameters := { s.parameters with velocity_sp := r.1 }
      trace := s.trace ++
        [Call.pid PIDName.pid_position (PIDCall.setMode PIDMode.AUTO_MODE),
         Call.pid PIDName.pid_position
           (PIDCall.setTunings s.calibration.position_kp s.calibration.position_ki 0),
         Call.pid PIDName.pid_position (PIDCall.setInputLimits (-1) 1),
         Call.pid PIDName.pid_position
           (PIDCall.setOutputLimits (-s.calibration.velocity_limit) s.calibration.velocity_limit),
         Call.pid PIDName.pid_position (PIDCall.setSetPoint 0),
         Call.pid PIDName.pid_position
           (PIDCall.setProcessValue (s.results.rotor_pos - s.parameters.position_sp)),
         Call.pid PIDName.pid_position (PIDCall.setBias 0),
         Call.pid PIDName.pid_position PIDCall.compute] }
  else
    { s with
      pid_position := ops.setMode s.pid_position PIDMode.MANUAL_MODE
      trace := s.trace ++ [Call.pid PIDName.pid_position (PIDCall.setMode PIDMode.MANUAL_MODE)] }

/-- The PID object `pid_velocity` just before `compute` is called on it (lines 248-256). -/
def velocityPIDConfigured (ops : PIDOps F P) (s : State F P) : P :=
  let p := ops.setMode s.pid_velocity PIDMode.AUTO_MODE
  let p := ops.setTunings p s.calibration.velocity_kp s.calibration.velocity_ki 0
  let velocity_max : F := 40
  let p := ops.setInputLimits p (-velocity_max) velocity_max
  let p := ops.setOutputLimits p (-s.calibration.torque_limit) s.calibration.torque_limit
  let p := ops.setSetPoint p s.parameters.velocity_sp
  let p := ops.setProcessValue p s.results.rotor_vel
  ops.setBias p 0

/-- The function `runVelocityControl` (lines 246-261). -/
def runVelocityControl (ops : PIDOps F P) (s : State F P) : State F P :=
  if velocityActive s.parameters.control_mode then
    let r := ops.compute (velocityPIDConfigured ops s)
    { s with
      pid_velocity := r.2
      parameters := { s.parameters with torque_sp := r.1 }
      trace := s.trace ++
        [Call.pid PIDName.pid_velocity (PIDCall.setMode PIDMode.AUTO_MODE),
         Call.pid PIDName.pid_velocity
           (PIDCall.setTunings s.calibration.velocity_kp s.calibration.velocity_ki 0),
         Call.pid PIDName.pid_velocity (PIDCall.setInputLimits (-40) 40),
         Call.pid PIDName.pid_velocity
           (PIDCall.setOutputLimits (-s.calibration.torque_limit) s.calibration.torque_limit),
         Call.pid PIDName.pid_velocity (PIDCall.setSetPoint s.parameters.velocity_sp),
         Call.pid PIDName.pid_velocity (PIDCall.setProcessValue s.results.rotor_vel),
         Call.pid PIDName.pid_velocity (PIDCall.setBias 0),
         Call.pid PIDName.pid_velocity PIDCall.compute] }
  else
    { s with
      pid_velocity := ops.setMode s.pid_velocity PIDMode.MANUAL_MODE
      trace := s.trace ++ [Call.pid PIDName.pid_velocity (PIDCall.setMode PIDMode.MANUAL_MODE)] }

/-! ## Current loop -/

/-- The locals `id_sp`, `iq_sp` chosen at lines 306-317. -/
def currentSetpoints (s : State F P) : F × F :=
  if s.parameters.control_mode = ControlMode.control_mode_foc_current then
    (s.parameters.foc_d_current_sp, s.parameters.foc_q_current_sp)
  else
    (0, s.parameters.torque_sp / s.calibration.motor_torque_const)

/-- The locals `cos_theta`, `sin_theta` (lines 288-292). -/
def rotorAngle (env : Env F) (s : State F P) : F × F :=
  let mech_pos := s.results.enc_pos - (s.calibration.erev_start : F) * env.rad_per_enc_tick
  let elec_pos := mech_pos * (s.calibration.erevs_per_mrev : F)
  (env.fast_cos elec_pos, env.fast_sin elec_pos)

/-- The locals `id`, `iq` (lines 281-295): the measured d/q currents. -/
def measuredCurrents (env : Env F) (s : State F P) : F × F :=
  let ab := env.transformClarke s.results.average_ia s.results.average_ib s.results.average_ic
  let ialpha := ab.1
  let ibeta := if s.calibration.flip_phases then -ab.2 else ab.2
  env.transformPark ialpha ibeta (rotorAngle env s).1 (rotorAngle env s).2

/-- The PID object `pid_id` after lines 297-304 (mode, tunings and output limits). -/
def idPIDArmed (ops : PIDOps F P) (s : State F P) : P :=
  let p := ops.setMode s.pid_id PIDMode.AUTO_MODE
  let p := ops.setTunings p s.calibration.foc_kp_d s.calibration.foc_ki_d 0
  ops.setOutputLimits p (-s.results.average_vin) s.results.average_vin

/-- The PID object `pid_iq` after lines 297-304 (mode, tunings and output limits). -/
def iqPIDArmed (ops : PIDOps F P) (s : State F P) : P :=
  let p := ops.setMode s.pid_iq PIDMode.AUTO_MODE
  let p := ops.setTunings p s.calibration.foc_kp_q s.calibration.foc_ki_q 0
  ops.setOutputLimits p (-s.results.average_vin) s.results.average_vin

/-- The PID object `pid_id` just before `compute` is called on it (lines 328-330). -/
def idPIDConfigured (env : Env F) (ops : PIDOps F P) (s : State F P) : P :=
  let id_sp := (currentSetpoints s).1
  let p := ops.setSetPoint (idPIDArmed ops s) id_sp
  let p := ops.setProcessValue p (measuredCurrents env s).1
  ops.setBias p (id_sp * s.calibration.motor_resistance)

/-- The PID object `pid_iq` just before `compute` is called on it (lines 332-334). -/
def iqPIDConfigured (env : Env F) (ops : PIDOps F P) (s : State F P) : P :=
  let iq_sp := (currentSetpoints s).2
  let p := ops.setSetPoint (iqPIDArmed ops s) iq_sp
  let p := ops.setProcessValue p (measuredCurrents env s).2
  ops.setBias p (iq_sp * s.calibration.motor_resistance
    + s.results.rotor_vel * s.calibration.motor_torque_const)

/-- The locals `vd`, `vq` at line 342 (lines 319-338). -/
def commandVoltages (env : Env F) (ops : PIDOps F P) (s : State F P) : F × F :=
  if s.parameters.control_mode = ControlMode.control_mode_pwm_drive then
    (0, s.parameters.pwm_drive)
  else
    ((ops.compute (idPIDConfigured env ops s)).1, (ops.compute (iqPIDConfigured env ops s)).1)

/-- The locals `vd_norm`, `vq_norm` (lines 342-343). -/
def normVoltages (env : Env F) (ops : PIDOps F P) (s : State F P) : F × F :=
  ((commandVoltages env ops s).1 / s.results.average_vin,
   (commandVoltages env ops s).2 / s.results.average_vin)

/-- The locals `duty0`, `duty1`, `duty2` (lines 345-353). -/
def dutyCycles (env : Env F) (ops : PIDOps F P) (s : State F P) : F × F × F :=
  let v := normVoltages env ops s
  let ab := env.transformInversePark v.1 v.2 (rotorAngle env s).1 (rotorAngle env s).2
  let valpha_norm := ab.1
  let vbeta_norm := if s.calibration.flip_phases then -ab.2 else ab.2
  env.computeDutyCycles valpha_norm vbeta_norm

/-- The PID calls of lines 297-304. -/
def currentArmCalls (s : State F P) : List (Call F) :=
  [Call.pid PIDName.pid_id (PIDCall.setMode PIDMode.AUTO_MODE),
   Call.pid PIDName.pid_iq (PIDCall.setMode PIDMode.AUTO_MODE),
   Call.pid PIDName.pid_id (PIDCall.setTunings s.calibration.foc_kp_d s.calibration.foc_ki_d 0),
   Call.pid PIDName.pid_iq (PIDCall.setTunings s.calibration.foc_kp_q s.calibration.foc_ki_q 0),
   Call.pid PIDName.pid_id
     (PIDCall.setOutputLimits (-s.results.average_vin) s.results.average_vin),
   Call.pid PIDName.pid_iq
     (PIDCall.setOutputLimits (-s.results.average_vin) s.results.average_vin)]

/-- The PID calls of lines 328-337, made when the mode is not `control_mode_pwm_drive`. -/
def currentComputeCalls (env : Env F) (s : State F P) : List (Call F) :=
  [Call.pid PIDName.pid_id (PIDCall.setSetPoint (currentSetpoints s).1),
   Call.pid PIDName.pid_id (PIDCall.setProcessValue (measuredCurrents env s).1),
   Call.pid PIDName.pid_id
     (PIDCall.setBias ((currentSetpoints s).1 * s.calibration.motor_resistance)),
   Call.pid PIDName.pid_iq (PIDCall.setSetPoint (currentSetpoints s).2),
   Call.pid PIDName.pid_iq (PIDCall.setProcessValue (measuredCurrents env s).2),
   Call.pid PIDName.pid_iq
     (PIDCall.setBias ((currentSetpoints s).2 * s.calibration.motor_resistance
       + s.results.rotor_vel * s.calibration.motor_torque_const)),
   Call.pid PIDName.pid_id PIDCall.compute,
   Call.pid PIDName.pid_iq PIDCall.compute]

/-- The gate driver calls of lines 355-357. -/
def dutyCalls (env : Env F) (ops : PIDOps F P) (s : State F P) : List (Call F) :=
  [Call.setPWMDutyCycle 0 (dutyCycles env ops s).1,
   Call.setPWMDutyCycle 1 (dutyCycles env ops s).2.1,
   Call.setPWMDutyCycle 2 (dutyCycles env ops s).2.2]

/-- The function `runCurrentControl` (lines 263-362). -/
def runCurrentControl (env : Env F) (ops : PIDOps F P) (s : State F P) : State F P :=
  if s.parameters.control_mode = ControlMode.control_mode_raw_phase_pwm then
    { s with
      trace := s.trace ++
        [Call.setPWMDutyCycle 0 s.parameters.phase0,
         Call.setPWMDutyCycle 1 s.parameters.phase1,
         Call.setPWMDutyCycle 2 s.parameters.phase2] }
  else if s.parameters.control_mode = ControlMode.control_mode_pwm_drive then
    { s with
      pid_id := idPIDArmed ops s
      pid_iq := iqPIDArmed ops s
      results :=
        { s.results with
          foc_d_current := (measuredCurrents env s).1
          foc_q_current := (measuredCurrents env s).2 }
      trace := s.trace ++ currentArmCalls s ++ dutyCalls env ops s }
  else
    { s with
      pid_id := (ops.compute (idPIDConfigured env ops s)).2
      pid_iq := (ops.compute (iqPIDConfigured env ops s)).2
      results :=
        { s.results with
          foc_d_current := (measuredCurrents env s).1
          foc_q_current := (measuredCurrents env s).2 }
      trace := s.trace ++ currentArmCalls s ++ currentComputeCalls env s ++ dutyCalls env ops s }

/-! ## The control cycle -/

/-- The function `initControl` (lines 48-52); `ivsense_current_max` is a constant declared
elsewhere and `now` is what `chTimeNow()` returns. -/
def initControl (ops : PIDOps F P) (ivsense_current_max : F) (now : Nat) (s : State F P) :
    State F P :=
  { s with
    pid_id := ops.setInputLimits s.pid_id (-ivsense_current_max) ivsense_current_max
    pid_iq := ops.setInputLimits s.pid_iq (-ivsense_current_max) ivsense_current_max
    last_control_timeout_reset := now
    trace := s.trace ++
      [Call.pid PIDName.pid_id (PIDCall.setInputLimits (-ivsense_current_max) ivsense_current_max),
       Call.pid PIDName.pid_iq (PIDCall.setInputLimits (-ivsense_current_max) ivsense_current_max)] }

/-- The part of one iteration of the loop of `runInnerControlLoop` that follows the watchdog
check (lines 97-103). -/
def afterWatchdog (env : Env F) (ops : PIDOps F P) (inp : CycleInput F) (s : State F P) :
    State F P :=
  runCurrentControl env ops (runVelocityControl ops (runPositionControl ops (estimateState env inp s)))

/-- One iteration of the loop of `runInnerControlLoop` (lines 93-103), after the wake-up. -/
def controlCycle (env : Env F) (ops : PIDOps F P) (inp : CycleInput F) (s : State F P) :
    State F P :=
  afterWatchdog env ops inp (watchdogCheck env inp.now s)

/-- The part of `runInnerControlLoop` before the loop (lines 65-85): the first encoder read
request is issued. -/
def startEncoderRead (s : State F P) : State F P :=
  match s.results.encoder_mode with
  | EncoderMode.encoder_mode_as5047d =>
    { s with trace := s.trace ++ [Call.as5047d_startPipelinedRegisterReadI 0x3fff] }
  | EncoderMode.encoder_mode_mlx90363 =>
    { s with trace := s.trace ++ [Call.mlx90363_startAsyncExchangeMessageI] }
  | EncoderMode.encoder_mode_other => s

/-- The calls appended to the trace between state `s` and a later state `t`. -/
def newCalls (s t : State F P) : List (Call F) :=
  t.trace.drop s.trace.length

/-- What the other components do between two control cycles: the command layer writes
`parameters` and `calibration`, and may call `resetControlTimeout` (with the given clock
reading).  The writes are taken at cycle boundaries. -/
structure External (F : Type) where
  write_parameters : Parameters F → Parameters F
  write_calibration : Calibration F → Calibration F
  liveness : Option Nat

/-- The effect of the other components on the state of `control.cpp`. -/
def applyExternal (e : External F) (s : State F P) : State F P :=
  let s1 : State F P :=
    { s with
      parameters := e.write_parameters s.parameters
      calibration := e.write_calibration s.calibration }
  match e.liveness with
  | none => s1
  | some t => resetControlTimeout t s1

/-- Consecutive iterations of the loop of `runInnerControlLoop` (lines 87-104), one per
element of the list. -/
def runCycles (env : Env F) (ops : PIDOps F P) :
    List (External F × CycleInput F) → State F P → State F P
  | [], s => s
  | (e, inp) :: rest, s => runCycles env ops rest (controlCycle env ops inp (applyExternal e s))

/-- The control mode that the cascade of a cycle sees: the mode after the external writes and
the watchdog check. -/
def modeInCycle (env : Env F) (e : External F) (inp : CycleInput F) (s : State F P) :
    ControlMode :=
  (watchdogCheck env inp.now (applyExternal e s)).parameters.control_mode

/-- In each cycle of the run from `s`, the activation condition `active` is false. -/
def heldThroughout (env : Env F) (ops : PIDOps F P) (active : ControlMode → Bool) :
    List (External F × CycleInput F) → State F P → Bool
  | [], _ => true
  | (e, inp) :: rest, s =>
    !active (modeInCycle env e inp s) &&
      heldThroughout env ops active rest (controlCycle env ops inp (applyExternal e s))

/-- The assumption on the external PID class under which saturation is stated: `limits p` are
the output limits last configured on the object `p`, the setters called between
`setOutputLimits` and `compute` keep them, and `compute` returns a value inside them (when
they form a non-empty interval). -/
structure PIDOutputClamped (ops : PIDOps F P) (limits : P → F × F) : Prop where
  setOutputLimits : ∀ p lo hi, limits (ops.setOutputLimits p lo hi) = (lo, hi)
  setSetPoint : ∀ p x, limits (ops.setSetPoint p x) = limits p
  setProcessValue : ∀ p x, limits (ops.setProcessValue p x) = limits p
  setBias : ∀ p x, limits (ops.setBias p x) = limits p
  compute : ∀ p, (limits p).1 ≤ (limits p).2 →
    (limits p).1 ≤ (ops.compute p).1 ∧ (ops.compute p).1 ≤ (limits p).2

/-! ## Sequences of operations -/

/-- The operations of `control.cpp` that act on its state, each with what the hardware
supplies to it. -/
inductive CoreOp (F : Type) where
  | initControl (ivsense_current_max : F) (now : Nat)
  | resetControlTimeout (now : Nat)
  | brakeMotor
  | watchdogCheck (now : Nat)
  | estimateState (inp : CycleInput F)
  | runPositionControl
  | runVelocityControl
  | runCurrentControl

/-- The effect of one operation. -/
def applyCoreOp (env : Env F) (ops : PIDOps F P) : CoreOp F → State F P → State F P
  | CoreOp.initControl m now, s => initControl ops m now s
  | CoreOp.resetControlTimeout now, s => resetControlTimeout now s
  | CoreOp.brakeMotor, s => brakeMotor s
  | CoreOp.watchdogCheck now, s => watchdogCheck env now s
  | CoreOp.estimateState inp, s => estimateState env inp s
  | CoreOp.runPositionControl, s => runPositionControl ops s
  | CoreOp.runVelocityControl, s => runVelocityControl ops s
  | CoreOp.runCurrentControl, s => runCurrentControl env ops s

/-- The effect of a sequence of operations, first element first. -/
def runCoreOps (env : Env F) (ops : PIDOps F P) : List (CoreOp F) → State F P → State F P
  | [], s => s
  | op :: rest, s => runCoreOps env ops rest (applyCoreOp env ops op s)

/-- Something that happens to the state of `control.cpp`: one of its own operations, or a
write to `parameters` by the command layer. -/
inductive Activity (F : Type) where
  | core (op : CoreOp F)
  | command (write : Parameters F → Parameters F)

/-- The effect of one activity. -/
def applyActivity (env : Env F) (ops : PIDOps F P) : Activity F → State F P → State F P
  | Activity.core op, s => applyCoreOp env ops op s
  | Activity.command write, s => { s with parameters := write s.parameters }

/-- The effect of a sequence of activities, first element first. -/
def runActivities (env : Env F) (ops : PIDOps F P) :
    List (Activity F) → State F P → State F P
  | [], s => s
  | a :: rest, s => runActivities env ops rest (applyActivity env ops a s)

/-- The state `s` with `parameters.control_mode` set to `m`. -/
def withControlMode (m : ControlMode) (s : State F P) : State F P :=
  { s with parameters := { s.parameters with control_mode := m } }

/-- The divisor of the division at line 316, when `runCurrentControl` evaluates it: the raw
PWM branch (line 268) does not reach the division and the FocCurrent branch (line 307)
takes the other arm; in every other mode line 316 is executed. -/
def torqueDivisor (s : State F P) : Option F :=
  if s.parameters.control_mode = ControlMode.control_mode_raw_phase_pwm then none
  else if s.parameters.control_mode = ControlMode.control_mode_foc_current then none
  else some s.calibration.motor_torque_const

/-- The value `chTimeNow()` returns `t` ticks after it returned `last`: the tick counter is a
`systime_t` and wraps around. -/
def clockReading (env : Env F) (last t : Nat) : Nat :=
  (last + t) % env.systime_mod

/-- The sum of the samples of the channel with offset `ch` over the cycle, as a natural
number (no wrap-around). -/
def sampleSum (env : Env F) (samples : Nat → Nat) (ch : Nat) : Nat :=
  ((List.range env.ivsense_adc_samples_count).map
    (fun i => samples (i * env.ivsense_channel_count + ch))).sum

/-- The arithmetic mean of the samples of the channel with offset `ch` over the cycle: their
sum divided by the number of samples summed. -/
def sampleMean (env : Env F) (samples : Nat → Nat) (ch : Nat) : F :=
  (sampleSum env samples ch : F) / (env.ivsense_adc_samples_count : F)

/-- Modelled from the spec: `ivsense_adc_samples_count` (the bound of the loop of lines
194-202) and `ivsense_samples_per_cycle` (the divisor of lines 204-210) are declared outside
`control.cpp`.  The spec says that the estimator averages "a fixed number of raw ADC samples
per channel per cycle", taken from a "fixed-size raw-sample buffer per cycle": the number of
samples the buffer holds per channel is the number of samples per cycle. -/
def sampleCountFixed (env : Env F) : Prop :=
  env.ivsense_samples_per_cycle = (env.ivsense_adc_samples_count : F)

/-! ## Sample data

Concrete values over the rationals at which the theorems are instantiated.  The PID
implementation below is a stand-in for the external `PID` class. -/

/-- A simple PI controller object with clamped output. -/
structure SamplePID (F : Type) where
  mode : PIDMode
  kp : F
  ki : F
  out_min : F
  out_max : F
  set_point : F
  process_value : F
  bias : F
  accum : F

/-- The methods of `SamplePID`. -/
def samplePIDOps : PIDOps F (SamplePID F) where
  setMode p m := { p with mode := m }
  setTunings p kp ki _ := { p with kp := kp, ki := ki }
  setInputLimits p _ _ := p
  setOutputLimits p lo hi := { p with out_min := lo, out_max := hi }
  setSetPoint p x := { p with set_point := x }
  setProcessValue p x := { p with process_value := x }
  setBias p x := { p with bias := x }
  compute p :=
    match p.mode with
    | PIDMode.MANUAL_MODE => (max p.out_min (min p.out_max p.bias), p)
    | PIDMode.AUTO_MODE =>
      let err := p.set_point - p.process_value
      let acc := p.accum + p.ki * err
      (max p.out_min (min p.out_max (p.kp * err + acc + p.bias)), { p with accum := acc })

/-- The output limits stored in a `SamplePID`. -/
def sampleLimits (p : SamplePID F) : F × F :=
  (p.out_min, p.out_max)

/-- A sample environment: 16384 encoder ticks per turn, with `355/113` standing for `pi`. -/
def sampleEnv : Env ℚ where
  pi := 355 / 113
  rad_per_enc_tick := 2 * (355 / 113) / 16384
  encoder_period := 16384
  current_control_freq := 20000
  MS2ST := fun ms => ms * 10
  systime_mod := 2 ^ 32
  uint_mod := 2 ^ 32
  ivsense_adc_samples_count := 2
  ivsense_samples_per_cycle := 2
  ivsense_channel_count := 7
  ivsense_channel_ia := 0
  ivsense_channel_ib := 1
  ivsense_channel_ic := 2
  ivsense_channel_va := 3
  ivsense_channel_vb := 4
  ivsense_channel_vc := 5
  ivsense_channel_vin := 6
  adcValueToCurrent := fun x => (x - 2048) / 100
  adcValueToVoltage := fun x => x / 100
  enc_ang_corr_table := fun _ _ => 0
  transformClarke := fun ia ib _ => (ia, (ia + 2 * ib) / 2)
  transformPark := fun a b c sn => (a * c + b * sn, b * c - a * sn)
  transformInversePark := fun d q c sn => (d * c - q * sn, d * sn + q * c)
  fast_cos := fun _ => 1
  fast_sin := fun _ => 0
  computeDutyCycles := fun a b => (a, b, 0)

/-- A sample calibration with a 100 ms control timeout and angle correction disabled. -/
def sampleCalibration : Calibration ℚ where
  control_timeout := 100
  enc_ang_corr_scale := 0
  enc_ang_corr_offset := 0
  enc_ang_corr_table_values := []
  position_offset := 0
  velocity_filter_param := 1 / 2
  position_kp := 1
  position_ki := 0
  velocity_limit := 10
  velocity_kp := 1
  velocity_ki := 0
  torque_limit := 2
  flip_phases := false
  erev_start := 0
  erevs_per_mrev := 7
  foc_kp_d := 1
  foc_ki_d := 0
  foc_kp_q := 1
  foc_ki_q := 0
  motor_torque_const := 1
  motor_resistance := 1

/-- Sample parameters for a given control mode. -/
def sampleParameters (m : ControlMode) : Parameters ℚ where
  control_mode := m
  position_sp := 1
  velocity_sp := 2
  torque_sp := 3
  foc_d_current_sp := 4
  foc_q_current_sp := 5
  phase0 := 1 / 4
  phase1 := 1 / 2
  phase2 := 3 / 4
  pwm_drive := 6

/-- Sample results: previous raw reading 16383 with the matching corrected angle. -/
def sampleResults (em : EncoderMode) : Results ℚ where
  encoder_mode := em
  raw_enc_value := 16383
  enc_pos := 16383 * (2 * (355 / 113) / 16384)
  rotor_revs := 0
  rotor_pos := 16383 * (2 * (355 / 113) / 16384)
  rotor_vel := 8
  average_ia := 0
  average_ib := 0
  average_ic := 0
  average_va := 0
  average_vb := 0
  average_vc := 0
  average_vin := 12
  foc_d_current := 0
  foc_q_current := 0

/-- A sample PID object. -/
def samplePID : SamplePID ℚ where
  mode := PIDMode.MANUAL_MODE
  kp := 1
  ki := 1
  out_min := -1
  out_max := 1
  set_point := 0
  process_value := 0
  bias := 0
  accum := 3

/-- A sample state for a given control mode and encoder mode. -/
def sampleState (m : ControlMode) (em : EncoderMode) : State ℚ (SamplePID ℚ) where
  calibration := sampleCalibration
  parameters := sampleParameters m
  results := sampleResults em
  pid_id := samplePID
  pid_iq := samplePID
  pid_velocity := samplePID
  pid_position := samplePID
  last_control_timeout_reset := 0
  cycles_since_update := 20
  trace := []

/-- A sample cycle input: clock reading 5000, raw angle 2 from either encoder. -/
def sampleInput : CycleInput ℚ where
  now := 5000
  as5047d_result := 2
  mlx90363_status_ok := true
  mlx90363_alpha := 16382
  ivsense_adc_samples := fun _ => 2048

/-- A sample interval between cycles in which no other component acts. -/
def sampleExternal : External ℚ where
  write_parameters := fun p => p
  write_calibration := fun c => c
  liveness := none

/-- A sample command between cycles: the command layer selects RawPwm mode and does not call
`resetControlTimeout`. -/
def sampleRawCommand : External ℚ where
  write_parameters := fun p => { p with control_mode := ControlMode.control_mode_raw_phase_pwm }
  write_calibration := fun c => c
  liveness := none

/-- The sample cycle input with the clock reading taken `t` ticks after a reset at clock
value 0. -/
def sampleInputAt (t : Nat) : CycleInput ℚ :=
  { sampleInput with now := clockReading sampleEnv 0 t }

end Defs

/-! ## Theorems -/

section Theorems

variable {F P : Type} [LinearOrderedField F]

set_option linter.unusedSectionVars false

/-! ### What each operation leaves unchanged -/

theorem watchdogCheck_expired (env : Env F) (now : Nat) (s : State F P)
    (h : watchdogExpired env now s = true) : watchdogCheck env now s = brakeMotor s := by
  simp [watchdogCheck, h]

theorem watchdogCheck_not_expired (env : Env F) (now : Nat) (s : State F P)
    (h : watchdogExpired env now s = false) : watchdogCheck env now s = s := by
  simp [watchdogCheck, h]

@[simp]
theorem estimateState_parameters (env : Env F) (inp : CycleInput F) (s : State F P) :
    (estimateState env inp s).parameters = s.parameters := rfl

@[simp]
theorem estimateState_calibration (env : Env F) (inp : CycleInput F) (s : State F P) :
    (estimateState env inp s).calibration = s.calibration := rfl

@[simp]
theorem estimateState_pid_position (env : Env F) (inp : CycleInput F) (s : State F P) :
    (estimateState env inp s).pid_position = s.pid_position := rfl

@[simp]
theorem estimateState_pid_velocity (env : Env F) (inp : CycleInput F) (s : State F P) :
    (estimateState env inp s).pid_velocity = s.pid_velocity := rfl

@[simp]
theorem estimateState_pid_id (env : Env F) (inp : CycleInput F) (s : State F P) :
    (estimateState env inp s).pid_id = s.pid_id := rfl

@[simp]
theorem estimateState_pid_iq (env : Env F) (inp : CycleInput F) (s : State F P) :
    (estimateState env inp s).pid_iq = s.pid_iq := rfl

theorem runPositionControl_inactive (ops : PIDOps F P) (s : State F P)
    (h : positionActive s.parameters.control_mode = false) :
    runPositionControl ops s =
      { s with
        pid_position := ops.setMode s.pid_position PIDMode.MANUAL_MODE
        trace := s.trace ++
          [Call.pid PIDName.pid_position (PIDCall.setMode PIDMode.MANUAL_MODE)] } := by
  simp [runPositionControl, h]

theorem runVelocityControl_inactive (ops : PIDOps F P) (s : State F P)
    (h : velocityActive s.parameters.control_mode = false) :
    runVelocityControl ops s =
      { s with
        pid_velocity := ops.setMode s.pid_velocity PIDMode.MANUAL_MODE
        trace := s.trace ++
          [Call.pid PIDName.pid_velocity (PIDCall.setMode PIDMode.MANUAL_MODE)] } := by
  simp [runVelocityControl, h]

@[simp]
theorem runPositionControl_control_mode (ops : PIDOps F P) (s : State F P) :
    (runPositionControl ops s).parameters.control_mode = s.parameters.control_mode := by
  unfold runPositionControl; split <;> rfl

@[simp]
theorem runPositionControl_calibration (ops : PIDOps F P) (s : State F P) :
    (runPositionControl ops s).calibration = s.calibration := by
  unfold runPositionControl; split <;> rfl

@[simp]
theorem runPositionControl_results (ops : PIDOps F P) (s : State F P) :
    (runPositionControl ops s).results = s.results := by
  unfold runPositionControl; split <;> rfl

@[simp]
theorem runPositionControl_pid_velocity (ops : PIDOps F P) (s : State F P) :
    (runPositionControl ops s).pid_velocity = s.pid_velocity := by
  unfold runPositionControl; split <;> rfl

@[simp]
theorem runPositionControl_pid_id (ops : PIDOps F P) (s : State F P) :
    (runPositionControl ops s).pid_id = s.pid_id := by
  unfold runPositionControl; split <;> rfl

@[simp]
theorem runPositionControl_pid_iq (ops : PIDOps F P) (s : State F P) :
    (runPositionControl ops s).pid_iq = s.pid_iq := by
  unfold runPositionControl; split <;> rfl

@[simp]
theorem runVelocityControl_control_mode (ops : PIDOps F P) (s : State F P) :
    (runVelocityControl ops s).parameters.control_mode = s.parameters.control_mode := by
  unfold runVelocityControl; split <;> rfl

@[simp]
theorem runVelocityControl_calibration (ops : PIDOps F P) (s : State F P) :
    (runVelocityControl ops s).calibration = s.calibration := by
  unfold runVelocityControl; split <;> rfl

@[simp]
theorem runVelocityControl_results (ops : PIDOps F P) (s : State F P) :
    (runVelocityControl ops s).results = s.results := by
  unfold runVelocityControl; split <;> rfl

@[simp]
theorem runVelocityControl_pid_position (ops : PIDOps F P) (s : State F P) :
    (runVelocityControl ops s).pid_position = s.pid_position := by
  unfold runVelocityControl; split <;> rfl

@[simp]
theorem runVelocityControl_pid_id (ops : PIDOps F P) (s : State F P) :
    (runVelocityControl ops s).pid_id = s.pid_id := by
  unfold runVelocityControl; split <;> rfl

@[simp]
theorem runVelocityControl_pid_iq (ops : PIDOps F P) (s : State F P) :
    (runVelocityControl ops s).pid_iq = s.pid_iq := by
  unfold runVelocityControl; split <;> rfl

@[simp]
theorem runCurrentControl_parameters (env : Env F) (ops : PIDOps F P) (s : State F P) :
    (runCurrentControl env ops s).parameters = s.parameters := by
  unfold runCurrentControl; split_ifs <;> rfl

@[simp]
theorem runCurrentControl_calibration (env : Env F) (ops : PIDOps F P) (s : State F P) :
    (runCurrentControl env ops s).calibration = s.calibration := by
  unfold runCurrentControl; split_ifs <;> rfl

@[simp]
theorem runCurrentControl_pid_position (env : Env F) (ops : PIDOps F P)
    (s : State F P) : (runCurrentControl env ops s).pid_position = s.pid_position := by
  unfold runCurrentControl; split_ifs <;> rfl

@[simp]
theorem runCurrentControl_pid_velocity (env : Env F) (ops : PIDOps F P)
    (s : State F P) : (runCurrentControl env ops s).pid_velocity = s.pid_velocity := by
  unfold runCurrentControl; split_ifs <;> rfl

theorem runCurrentControl_foc (env : Env F) (ops : PIDOps F P) (s : State F P)
    (h1 : s.parameters.control_mode ≠ ControlMode.control_mode_raw_phase_pwm)
    (h2 : s.parameters.control_mode ≠ ControlMode.control_mode_pwm_drive) :
    runCurrentControl env ops s =
      { s with
        pid_id := (ops.compute (idPIDConfigured env ops s)).2
        pid_iq := (ops.compute (iqPIDConfigured env ops s)).2
        results :=
          { s.results with
            foc_d_current := (measuredCurrents env s).1
            foc_q_current := (measuredCurrents env s).2 }
        trace := s.trace ++ currentArmCalls s ++ currentComputeCalls env s ++
          dutyCalls env ops s } := by
  simp [runCurrentControl, h1, h2]

/-! ### The claims -/

/-- C1: when `control_timeout = T` is non-zero and the unsigned tick difference between the
clock reading and `last_control_timeout_reset` is at least `MS2ST(T)`, the watchdog check
leaves both FOC current setpoints at zero and the control mode at `FocCurrent`, whatever
they were before; when `control_timeout` is zero the check changes nothing, for every clock
reading. -/
theorem C1_watchdog_check (env : Env F) (now : Nat) (s : State F P) :
    (s.calibration.control_timeout ≠ 0 →
      env.MS2ST s.calibration.control_timeout ≤
        elapsedTicks env now s.last_control_timeout_reset →
      (watchdogCheck env now s).parameters.foc_d_current_sp = 0 ∧
      (watchdogCheck env now s).parameters.foc_q_current_sp = 0 ∧
      (watchdogCheck env now s).parameters.control_mode =
        ControlMode.control_mode_foc_current) ∧
    (s.calibration.control_timeout = 0 → watchdogCheck env now s = s) := by
  constructor
  · intro hT hel
    have hexp : watchdogExpired env now s = true := by
      simp [watchdogExpired, hT, hel]
    simp [watchdogCheck, hexp, brakeMotor]
  · intro hT
    have hexp : watchdogExpired env now s = false := by
      simp [watchdogExpired, hT]
    simp [watchdogCheck, hexp]

/-- Witness for C1: the sample state (timeout 100 ms, 1000 ticks) at clock reading 5000, and
the same state with the timeout disabled. -/
theorem C1_watchdog_check_witness :
    ((sampleState ControlMode.control_mode_raw_phase_pwm
        EncoderMode.encoder_mode_as5047d).calibration.control_timeout ≠ 0 ∧
      sampleEnv.MS2ST 100 ≤ elapsedTicks sampleEnv 5000 0 ∧
      (watchdogCheck sampleEnv 5000
        (sampleState ControlMode.control_mode_raw_phase_pwm
          EncoderMode.encoder_mode_as5047d)).parameters.control_mode =
        ControlMode.control_mode_foc_current) ∧
    watchdogCheck sampleEnv 5000
      { sampleState ControlMode.control_mode_raw_phase_pwm EncoderMode.encoder_mode_as5047d with
        calibration := { sampleCalibration with control_timeout := 0 } } =
      { sampleState ControlMode.control_mode_raw_phase_pwm EncoderMode.encoder_mode_as5047d with
        calibration := { sampleCalibration with control_timeout := 0 } } :=
  ⟨⟨by decide, by decide,
    ((C1_watchdog_check sampleEnv 5000
      (sampleState ControlMode.control_mode_raw_phase_pwm
        EncoderMode.encoder_mode_as5047d)).1 (by decide) (by decide)).2.2⟩,
   (C1_watchdog_check sampleEnv 5000
      { sampleState ControlMode.control_mode_raw_phase_pwm EncoderMode.encoder_mode_as5047d with
        calibration := { sampleCalibration with control_timeout := 0 } }).2 rfl⟩

/-- C2: in a control cycle whose watchdog check fires, whatever the control mode was before
the check, the rest of the cycle only switches the position and velocity PIDs to MANUAL (no
`compute` call on either), and `runCurrentControl` runs in `FocCurrent` mode with both
setpoints zero: it takes neither the raw PWM branch nor the direct-drive branch, it calls
`setSetPoint(0)` and `compute` on both current PIDs, and the voltages it uses are the
outputs of those two `compute` calls. -/
theorem C2_brake_cycle_uses_current_loop (env : Env F) (ops : PIDOps F P) (inp : CycleInput F)
    (s : State F P) (hfire : watchdogExpired env inp.now s = true) :
    let s2 := estimateState env inp (brakeMotor s)
    let s3 := runVelocityControl ops (runPositionControl ops s2)
    let s4 := controlCycle env ops inp s
    s3.pid_position = ops.setMode s.pid_position PIDMode.MANUAL_MODE ∧
    s3.pid_velocity = ops.setMode s.pid_velocity PIDMode.MANUAL_MODE ∧
    s3.trace = s2.trace ++
      [Call.pid PIDName.pid_position (PIDCall.setMode PIDMode.MANUAL_MODE),
       Call.pid PIDName.pid_velocity (PIDCall.setMode PIDMode.MANUAL_MODE)] ∧
    s3.parameters.control_mode = ControlMode.control_mode_foc_current ∧
    currentSetpoints s3 = (0, 0) ∧
    s4 = runCurrentControl env ops s3 ∧
    s4.pid_position = s3.pid_position ∧
    s4.pid_velocity = s3.pid_velocity ∧
    s4.trace = s3.trace ++ currentArmCalls s3 ++
      [Call.pid PIDName.pid_id (PIDCall.setSetPoint 0),
       Call.pid PIDName.pid_id (PIDCall.setProcessValue (measuredCurrents env s3).1),
       Call.pid PIDName.pid_id (PIDCall.setBias 0),
       Call.pid PIDName.pid_iq (PIDCall.setSetPoint 0),
       Call.pid PIDName.pid_iq (PIDCall.setProcessValue (measuredCurrents env s3).2),
       Call.pid PIDName.pid_iq (PIDCall.setBias 0),
       Call.pid PIDName.pid_id PIDCall.compute,
       Call.pid PIDName.pid_iq PIDCall.compute] ++
      dutyCalls env ops s3 ∧
    commandVoltages env ops s3 =
      ((ops.compute (ops.setBias (ops.setProcessValue (ops.setSetPoint (idPIDArmed ops s3) 0)
          (measuredCurrents env s3).1) 0)).1,
       (ops.compute (ops.setBias (ops.setProcessValue (ops.setSetPoint (iqPIDArmed ops s3) 0)
          (measuredCurrents env s3).2) 0)).1) ∧
    s4.pid_id = (ops.compute (ops.setBias (ops.setProcessValue
      (ops.setSetPoint (idPIDArmed ops s3) 0) (measuredCurrents env s3).1) 0)).2 ∧
    s4.pid_iq = (ops.compute (ops.setBias (ops.setProcessValue
      (ops.setSetPoint (iqPIDArmed ops s3) 0) (measuredCurrents env s3).2) 0)).2 := by
  intro s2 s3 s4
  have hmode2 : s2.parameters.control_mode = ControlMode.control_mode_foc_current := rfl
  have hpos : positionActive s2.parameters.control_mode = false := by
    rw [hmode2]; rfl
  have hvel : velocityActive (runPositionControl ops s2).parameters.control_mode = false := by
    rw [runPositionControl_control_mode, hmode2]; rfl
  have hs3 : s3 = { s2 with
      pid_position := ops.setMode s2.pid_position PIDMode.MANUAL_MODE
      pid_velocity := ops.setMode s2.pid_velocity PIDMode.MANUAL_MODE
      trace := s2.trace ++
        [Call.pid PIDName.pid_position (PIDCall.setMode PIDMode.MANUAL_MODE),
         Call.pid PIDName.pid_velocity (PIDCall.setMode PIDMode.MANUAL_MODE)] } := by
    show runVelocityControl ops (runPositionControl ops s2) = _
    rw [runVelocityControl_inactive ops _ hvel, runPositionControl_inactive ops s2 hpos]
    simp
  have hmode3 : s3.parameters.control_mode = ControlMode.control_mode_foc_current := by
    rw [hs3]; rfl
  have hsp : currentSetpoints s3 = (0, 0) := by
    rw [hs3]; simp [currentSetpoints, s2, brakeMotor]
  have htc : s3.calibration.motor_torque_const = 0 := by
    rw [hs3]; rfl
  have hs4 : s4 = runCurrentControl env ops s3 := by
    show controlCycle env ops inp s = _
    simp only [controlCycle, afterWatchdog, watchdogCheck_expired env inp.now s hfire]
  have hfoc := runCurrentControl_foc env ops s3 (by rw [hmode3]; decide) (by rw [hmode3]; decide)
  refine ⟨by rw [hs3]; rfl, by rw [hs3]; rfl, by rw [hs3], hmode3, hsp, hs4,
    by rw [hs4]; simp, by rw [hs4]; simp, ?_, ?_, ?_, ?_⟩
  · rw [hs4, hfoc]
    simp [currentComputeCalls, hsp, htc]
  · simp [commandVoltages, hmode3, idPIDConfigured, iqPIDConfigured, hsp, htc]
  · rw [hs4, hfoc]
    simp [idPIDConfigured, hsp]
  · rw [hs4, hfoc]
    simp [iqPIDConfigured, hsp, htc]

/-- Witness for C2: the sample state in raw PWM mode, whose watchdog has expired at clock
reading 5000. -/
theorem C2_brake_cycle_uses_current_loop_witness :
    watchdogExpired sampleEnv sampleInput.now
      (sampleState ControlMode.control_mode_raw_phase_pwm
        EncoderMode.encoder_mode_as5047d) = true ∧
    currentSetpoints
      (runVelocityControl samplePIDOps (runPositionControl samplePIDOps
        (estimateState sampleEnv sampleInput
          (brakeMotor (sampleState ControlMode.control_mode_raw_phase_pwm
            EncoderMode.encoder_mode_as5047d))))) = (0, 0) :=
  ⟨by decide,
   (C2_brake_cycle_uses_current_loop sampleEnv samplePIDOps sampleInput
      (sampleState ControlMode.control_mode_raw_phase_pwm EncoderMode.encoder_mode_as5047d)
      (by decide)).2.2.2.2.1⟩

/-! ### Revolution unwrapping -/

theorem unwrapStep_below (env : Env F) (r : Int) (delta : F) (h : delta < -env.pi) :
    unwrapStep env r delta = (r + 1, delta + 2 * env.pi) := by
  simp [unwrapStep, h]

theorem unwrapStep_above (env : Env F) (hpi : 0 < env.pi) (r : Int) (delta : F)
    (h : env.pi < delta) : unwrapStep env r delta = (r - 1, delta - 2 * env.pi) := by
  have h1 : ¬ delta < -env.pi := by
    intro hlt
    linarith
  simp [unwrapStep, h1, h]

theorem unwrapStep_within (env : Env F) (r : Int) (delta : F) (h1 : -env.pi ≤ delta)
    (h2 : delta ≤ env.pi) : unwrapStep env r delta = (r, delta) := by
  simp [unwrapStep, not_lt.mpr h1, not_lt.mpr h2]

theorem estimateState_unwrap (env : Env F) (inp : CycleInput F) (s : State F P) :
    ((estimateState env inp s).results.rotor_revs, normEncPosDiff env inp s) =
      unwrapStep env s.results.rotor_revs (rawEncPosDiff env inp s) := rfl

theorem estimateState_rotor_pos (env : Env F) (inp : CycleInput F) (s : State F P) :
    (estimateState env inp s).results.rotor_pos =
      (estimateState env inp s).results.enc_pos +
        ((estimateState env inp s).results.rotor_revs : F) * 2 * env.pi -
        s.calibration.position_offset := rfl

/-- C3: `estimateState` stores the new corrected angle `e`, forms `delta = e - p` with the
previous corrected angle `p`, and updates the revolution count `r` and the delta by
`unwrapStep`; for every count `r` and every `delta`: below `-pi` the count becomes `r + 1`
and the delta `delta + 2*pi`; above `pi` the count becomes `r - 1` and the delta
`delta - 2*pi`; otherwise both are unchanged.  The count changes by at most 1 per cycle. -/
theorem C3_revolution_unwrap (env : Env F) (hpi : 0 < env.pi) (inp : CycleInput F)
    (s : State F P) :
    (estimateState env inp s).results.enc_pos =
      encPosOf env s.calibration (readRawEncValue env inp s) ∧
    rawEncPosDiff env inp s =
      encPosOf env s.calibration (readRawEncValue env inp s) - s.results.enc_pos ∧
    ((estimateState env inp s).results.rotor_revs, normEncPosDiff env inp s) =
      unwrapStep env s.results.rotor_revs (rawEncPosDiff env inp s) ∧
    (∀ (r : Int) (delta : F),
      (delta < -env.pi → unwrapStep env r delta = (r + 1, delta + 2 * env.pi)) ∧
      (delta > env.pi → unwrapStep env r delta = (r - 1, delta - 2 * env.pi)) ∧
      (-env.pi ≤ delta → delta ≤ env.pi → unwrapStep env r delta = (r, delta))) ∧
    |(estimateState env inp s).results.rotor_revs - s.results.rotor_revs| ≤ 1 := by
  refine ⟨rfl, rfl, rfl, ?_, ?_⟩
  · intro r delta
    exact ⟨unwrapStep_below env r delta, unwrapStep_above env hpi r delta,
      unwrapStep_within env r delta⟩
  · show |(unwrapStep env s.results.rotor_revs (rawEncPosDiff env inp s)).1
        - s.results.rotor_revs| ≤ 1
    unfold unwrapStep
    split_ifs <;> simp

/-- C4: if the stored unwrapped position agrees with the stored corrected angle and
revolution count before the cycle, and the previous and the new corrected angle both lie in
`[0, 2*pi)`, then the `rotor_pos` written by `estimateState` exceeds the previous one by
exactly the normalized delta, whose magnitude is at most `pi`; the position offset is not
changed by the cycle. -/
theorem C4_unwrapped_position_continuous (env : Env F) (inp : CycleInput F) (s : State F P)
    (hinv : s.results.rotor_pos =
      s.results.enc_pos + (s.results.rotor_revs : F) * 2 * env.pi - s.calibration.position_offset)
    (hp0 : 0 ≤ s.results.enc_pos) (hp1 : s.results.enc_pos < 2 * env.pi)
    (he0 : 0 ≤ encPosOf env s.calibration (readRawEncValue env inp s))
    (he1 : encPosOf env s.calibration (readRawEncValue env inp s) < 2 * env.pi) :
    (estimateState env inp s).calibration.position_offset = s.calibration.position_offset ∧
    (estimateState env inp s).results.rotor_pos =
      encPosOf env s.calibration (readRawEncValue env inp s) +
        ((estimateState env inp s).results.rotor_revs : F) * 2 * env.pi -
        s.calibration.position_offset ∧
    (estimateState env inp s).results.rotor_pos - s.results.rotor_pos =
      normEncPosDiff env inp s ∧
    |normEncPosDiff env inp s| ≤ env.pi := by
  have hpi : 0 < env.pi := by linarith
  have hrp := estimateState_rotor_pos env inp s
  have hun := estimateState_unwrap env inp s
  have hraw : rawEncPosDiff env inp s =
      encPosOf env s.calibration (readRawEncValue env inp s) - s.results.enc_pos := rfl
  have henc : (estimateState env inp s).results.enc_pos =
      encPosOf env s.calibration (readRawEncValue env inp s) := rfl
  refine ⟨rfl, rfl, ?_, ?_⟩
  · rw [hrp, hinv, henc]
    rcases lt_or_le (rawEncPosDiff env inp s) (-env.pi) with h | h
    · rw [unwrapStep_below env _ _ h] at hun
      simp only [Prod.mk.injEq] at hun
      rw [hun.1, hun.2, hraw]
      push_cast
      ring
    · rcases lt_or_le env.pi (rawEncPosDiff env inp s) with h2 | h2
      · rw [unwrapStep_above env hpi _ _ h2] at hun
        simp only [Prod.mk.injEq] at hun
        rw [hun.1, hun.2, hraw]
        push_cast
        ring
      · rw [unwrapStep_within env _ _ h h2] at hun
        simp only [Prod.mk.injEq] at hun
        rw [hun.1, hun.2, hraw]
        ring
  · rcases lt_or_le (rawEncPosDiff env inp s) (-env.pi) with h | h
    · rw [unwrapStep_below env _ _ h] at hun
      simp only [Prod.mk.injEq] at hun
      rw [hun.2, abs_le]
      rw [hraw] at h ⊢
      constructor <;> linarith
    · rcases lt_or_le env.pi (rawEncPosDiff env inp s) with h2 | h2
      · rw [unwrapStep_above env hpi _ _ h2] at hun
        simp only [Prod.mk.injEq] at hun
        rw [hun.2, abs_le]
        rw [hraw] at h2 ⊢
        constructor <;> linarith
      · rw [unwrapStep_within env _ _ h h2] at hun
        simp only [Prod.mk.injEq] at hun
        rw [hun.2, abs_le]
        exact ⟨h, h2⟩

/-! ### Evaluation of the sample data -/

theorem sample_readRawEncValue (m : ControlMode) :
    readRawEncValue sampleEnv sampleInput (sampleState m EncoderMode.encoder_mode_as5047d) = 2 := by
  rfl

theorem sample_encPosOf (m : ControlMode) :
    encPosOf sampleEnv (sampleState m EncoderMode.encoder_mode_as5047d).calibration
      (readRawEncValue sampleEnv sampleInput (sampleState m EncoderMode.encoder_mode_as5047d)) =
      2 * (2 * (355 / 113) / 16384) := by
  rw [sample_readRawEncValue]
  simp [encPosOf, getEncoderAngleCorrection, sampleState, sampleCalibration, sampleEnv]

/-- Witness for C3: the sample environment, where `pi` is positive. -/
theorem C3_revolution_unwrap_witness :
    0 < sampleEnv.pi ∧
    |(estimateState sampleEnv sampleInput
        (sampleState ControlMode.control_mode_torque
          EncoderMode.encoder_mode_as5047d)).results.rotor_revs -
      (sampleState ControlMode.control_mode_torque
        EncoderMode.encoder_mode_as5047d).results.rotor_revs| ≤ 1 :=
  ⟨by norm_num [sampleEnv],
   (C3_revolution_unwrap sampleEnv (by norm_num [sampleEnv]) sampleInput
      (sampleState ControlMode.control_mode_torque
        EncoderMode.encoder_mode_as5047d)).2.2.2.2⟩

/-- Witness for C4: the sample state (previous raw angle 16383, new raw angle 2). -/
theorem C4_unwrapped_position_continuous_witness :
    |normEncPosDiff sampleEnv sampleInput
      (sampleState ControlMode.control_mode_torque EncoderMode.encoder_mode_as5047d)| ≤
      sampleEnv.pi :=
  (C4_unwrapped_position_continuous sampleEnv sampleInput
    (sampleState ControlMode.control_mode_torque EncoderMode.encoder_mode_as5047d)
    (by norm_num [sampleState, sampleResults, sampleCalibration, sampleEnv])
    (by norm_num [sampleState, sampleResults])
    (by norm_num [sampleState, sampleResults, sampleEnv])
    (by rw [sample_encPosOf]; norm_num)
    (by rw [sample_encPosOf]; norm_num [sampleEnv])).2.2.2

/-! ### Wrap detection on the tick grid -/

theorem encPosOf_uncorrected (env : Env F) (c : Calibration F) (h : c.enc_ang_corr_scale = 0)
    (raw : Nat) : encPosOf env c raw = (raw : F) * env.rad_per_enc_tick := by
  simp [encPosOf, getEncoderAngleCorrection, h]

theorem pi_eq_ticks (env : Env F) (htick : env.rad_per_enc_tick = 2 * env.pi / 16384) :
    env.pi = 8192 * env.rad_per_enc_tick := by
  rw [htick]; ring

theorem tick_pos (env : Env F) (hpi : 0 < env.pi)
    (htick : env.rad_per_enc_tick = 2 * env.pi / 16384) : 0 < env.rad_per_enc_tick := by
  rw [htick]; positivity

theorem ticks_below (env : Env F) (hpi : 0 < env.pi)
    (htick : env.rad_per_enc_tick = 2 * env.pi / 16384) (k : F) (hk : k < -8192) :
    k * env.rad_per_enc_tick < -env.pi := by
  have h := mul_lt_mul_of_pos_right hk (tick_pos env hpi htick)
  rw [pi_eq_ticks env htick]
  linarith

theorem ticks_above (env : Env F) (hpi : 0 < env.pi)
    (htick : env.rad_per_enc_tick = 2 * env.pi / 16384) (k : F) (hk : 8192 < k) :
    env.pi < k * env.rad_per_enc_tick := by
  have h := mul_lt_mul_of_pos_right hk (tick_pos env hpi htick)
  rw [pi_eq_ticks env htick]
  linarith

theorem ticks_within (env : Env F) (hpi : 0 < env.pi)
    (htick : env.rad_per_enc_tick = 2 * env.pi / 16384) (k : F) (h1 : -8192 ≤ k)
    (h2 : k ≤ 8192) :
    -env.pi ≤ k * env.rad_per_enc_tick ∧ k * env.rad_per_enc_tick ≤ env.pi := by
  have ht := le_of_lt (tick_pos env hpi htick)
  have ha := mul_le_mul_of_nonneg_right h1 ht
  have hb := mul_le_mul_of_nonneg_right h2 ht
  rw [pi_eq_ticks env htick]
  constructor <;> linarith

/-- C5: with angle correction disabled and 16384 ticks per `2*pi`, let the previous corrected
angle be that of the raw reading `a < 16384` and let `0 < d < 8192`.  If the new raw reading
is `(a + d) mod 16384`, the revolution count increases by 1 when `a + d >= 16384` and is
unchanged otherwise, and the normalized delta is `d` ticks.  If the new raw reading is
`(a - d) mod 16384`, the count decreases by 1 when `a - d < 0` and is unchanged otherwise,
and the normalized delta is `-d` ticks.  For `a = 16383` and new reading 2 the raw delta is
`-16381` ticks, below `-pi`, the count increases by 1 and the normalized delta is 3 ticks. -/
theorem C5_wrap_detection_exact (env : Env F) (hpi : 0 < env.pi)
    (htick : env.rad_per_enc_tick = 2 * env.pi / 16384) (inp : CycleInput F) (s : State F P)
    (hcorr : s.calibration.enc_ang_corr_scale = 0) (a d : Nat) (ha : a < 16384) (hd0 : 0 < d)
    (hd : d < 8192) (hprev : s.results.enc_pos = (a : F) * env.rad_per_enc_tick) :
    (readRawEncValue env inp s = (a + d) % 16384 →
      (estimateState env inp s).results.rotor_revs =
        s.results.rotor_revs + (if 16384 ≤ a + d then 1 else 0) ∧
      normEncPosDiff env inp s = (d : F) * (2 * env.pi / 16384)) ∧
    ((readRawEncValue env inp s : Int) = ((a : Int) - (d : Int)) % 16384 →
      (estimateState env inp s).results.rotor_revs =
        s.results.rotor_revs - (if a < d then 1 else 0) ∧
      normEncPosDiff env inp s = -((d : F) * (2 * env.pi / 16384))) ∧
    (a = 16383 → readRawEncValue env inp s = 2 →
      rawEncPosDiff env inp s = -(16381 * (2 * env.pi / 16384)) ∧
      rawEncPosDiff env inp s < -env.pi ∧
      (estimateState env inp s).results.rotor_revs = s.results.rotor_revs + 1 ∧
      normEncPosDiff env inp s = 3 * (2 * env.pi / 16384)) := by
  have hun := estimateState_unwrap env inp s
  have hpit : 2 * env.pi = 16384 * env.rad_per_enc_tick := by
    rw [htick]; ring
  have hraw : rawEncPosDiff env inp s =
      ((readRawEncValue env inp s : F) - (a : F)) * env.rad_per_enc_tick := by
    unfold rawEncPosDiff
    rw [encPosOf_uncorrected env _ hcorr, hprev]
    ring
  have hdF : (0 : F) < (d : F) := by exact_mod_cast hd0
  have hdF2 : (d : F) < 8192 := by exact_mod_cast hd
  rw [← htick]
  refine ⟨?_, ?_, ?_⟩
  · intro hnew
    by_cases hwrap : 16384 ≤ a + d
    · have hmod : (a + d) % 16384 = a + d - 16384 := by omega
      have hcast : (readRawEncValue env inp s : F) - (a : F) = (d : F) - 16384 := by
        rw [hnew, hmod, Nat.cast_sub hwrap]
        push_cast
        ring
      rw [hcast] at hraw
      have hlt : rawEncPosDiff env inp s < -env.pi := by
        rw [hraw]
        exact ticks_below env hpi htick _ (by linarith)
      rw [unwrapStep_below env _ _ hlt] at hun
      simp only [Prod.mk.injEq] at hun
      rw [hun.1, hun.2, hraw, if_pos hwrap, hpit]
      exact ⟨rfl, by ring⟩
    · have hmod : (a + d) % 16384 = a + d := by omega
      have hcast : (readRawEncValue env inp s : F) - (a : F) = (d : F) := by
        rw [hnew, hmod]
        push_cast
        ring
      rw [hcast] at hraw
      have hin := ticks_within env hpi htick (d : F) (by linarith) (by linarith)
      rw [← hraw] at hin
      rw [unwrapStep_within env _ _ hin.1 hin.2] at hun
      simp only [Prod.mk.injEq] at hun
      rw [hun.1, hun.2, hraw, if_neg hwrap]
      simp
  · intro hnew
    by_cases hwrap : a < d
    · have hmod : ((a : Int) - (d : Int)) % 16384 = (a : Int) - (d : Int) + 16384 := by omega
      have hcastZ : (readRawEncValue env inp s : Int) = (a : Int) - (d : Int) + 16384 := by
        rw [hnew, hmod]
      have hcast : (readRawEncValue env inp s : F) - (a : F) = 16384 - (d : F) := by
        have h := congrArg (fun z : Int => (z : F)) hcastZ
        simp only [Int.cast_natCast, Int.cast_add, Int.cast_sub, Int.cast_ofNat] at h
        rw [h]; ring
      rw [hcast] at hraw
      have hgt : env.pi < rawEncPosDiff env inp s := by
        rw [hraw]
        exact ticks_above env hpi htick _ (by linarith)
      rw [unwrapStep_above env hpi _ _ hgt] at hun
      simp only [Prod.mk.injEq] at hun
      rw [hun.1, hun.2, hraw, if_pos hwrap, hpit]
      exact ⟨rfl, by ring⟩
    · have hmod : ((a : Int) - (d : Int)) % 16384 = (a : Int) - (d : Int) := by omega
      have hcastZ : (readRawEncValue env inp s : Int) = (a : Int) - (d : Int) := by
        rw [hnew, hmod]
      have hcast : (readRawEncValue env inp s : F) - (a : F) = -(d : F) := by
        have h := congrArg (fun z : Int => (z : F)) hcastZ
        simp only [Int.cast_natCast, Int.cast_sub] at h
        rw [h]; ring
      rw [hcast] at hraw
      have hin := ticks_within env hpi htick (-(d : F)) (by linarith) (by linarith)
      rw [← hraw] at hin
      rw [unwrapStep_within env _ _ hin.1 hin.2] at hun
      simp only [Prod.mk.injEq] at hun
      rw [hun.1, hun.2, hraw, if_neg hwrap]
      simp
  · intro ha16 hnew
    have hcast : (readRawEncValue env inp s : F) - (a : F) = -16381 := by
      rw [hnew, ha16]
      push_cast
      norm_num
    rw [hcast] at hraw
    have hlt : rawEncPosDiff env inp s < -env.pi := by
      rw [hraw]
      exact ticks_below env hpi htick _ (by norm_num)
    rw [unwrapStep_below env _ _ hlt] at hun
    simp only [Prod.mk.injEq] at hun
    refine ⟨by rw [hraw]; ring, hlt, hun.1, ?_⟩
    rw [hun.2, hraw, hpit]
    ring

/-- Witness for C5: the sample state holds the corrected angle of raw reading 16383 and the
encoder then returns 2 (`a = 16383`, `d = 3`). -/
theorem C5_wrap_detection_exact_witness :
    (estimateState sampleEnv sampleInput
      (sampleState ControlMode.control_mode_torque
        EncoderMode.encoder_mode_as5047d)).results.rotor_revs =
      (sampleState ControlMode.control_mode_torque
        EncoderMode.encoder_mode_as5047d).results.rotor_revs + 1 ∧
    normEncPosDiff sampleEnv sampleInput
      (sampleState ControlMode.control_mode_torque EncoderMode.encoder_mode_as5047d) =
      3 * (2 * sampleEnv.pi / 16384) :=
  ((C5_wrap_detection_exact sampleEnv (by norm_num [sampleEnv]) (by norm_num [sampleEnv])
    sampleInput (sampleState ControlMode.control_mode_torque EncoderMode.encoder_mode_as5047d)
    rfl 16383 3 (by decide) (by decide) (by decide)
    (by norm_num [sampleState, sampleResults, sampleEnv])).2.2 rfl
      (sample_readRawEncValue _)).2.2

/-! ### MLX90363 fallback -/

theorem toUInt16_of_lt (n : Nat) (h : n < 65536) : toUInt16 (n : Int) = n := by
  unfold toUInt16
  omega

/-- C6: in MLX90363 mode the raw angle stored by `estimateState` equals the previously stored
one whenever the cycle is not a refresh cycle (`cycles_since_update < 20`) or the parsed
status is not OK; it can differ only on a refresh cycle with status OK, where it is
`encoder_period - alpha` as assigned to the `uint16_t` local, which is the plain difference
whenever `alpha <= encoder_period < 65536`. -/
theorem C6_mlx_raw_angle_fallback (env : Env F) (inp : CycleInput F) (s : State F P)
    (hmode : s.results.encoder_mode = EncoderMode.encoder_mode_mlx90363) :
    (mlxRefresh s = true ↔ 20 ≤ s.cycles_since_update) ∧
    (mlxRefresh s = false ∨ inp.mlx90363_status_ok = false →
      (estimateState env inp s).results.raw_enc_value = s.results.raw_enc_value) ∧
    ((estimateState env inp s).results.raw_enc_value ≠ s.results.raw_enc_value →
      mlxRefresh s = true ∧ inp.mlx90363_status_ok = true) ∧
    (mlxRefresh s = true → inp.mlx90363_status_ok = true →
      (estimateState env inp s).results.raw_enc_value =
        toUInt16 ((env.encoder_period : Int) - (toUInt16 inp.mlx90363_alpha : Int))) ∧
    (mlxRefresh s = true → inp.mlx90363_status_ok = true →
      inp.mlx90363_alpha ≤ env.encoder_period → env.encoder_period < 65536 →
      (estimateState env inp s).results.raw_enc_value =
        env.encoder_period - inp.mlx90363_alpha) := by
  have hraw : (estimateState env inp s).results.raw_enc_value = readRawEncValue env inp s := rfl
  have hread : readRawEncValue env inp s =
      if mlxRefresh s then
        if inp.mlx90363_status_ok = false then s.results.raw_enc_value
        else toUInt16 ((env.encoder_period : Int) - (toUInt16 inp.mlx90363_alpha : Int))
      else s.results.raw_enc_value := by
    simp only [readRawEncValue, hmode]
  rw [hraw, hread]
  refine ⟨by simp [mlxRefresh], ?_, ?_, ?_, ?_⟩
  · rintro (h | h) <;> simp [h]
  · intro hne
    by_cases h1 : mlxRefresh s = true
    · by_cases h2 : inp.mlx90363_status_ok = true
      · exact ⟨h1, h2⟩
      · simp [h1, h2] at hne
    · simp [h1] at hne
  · intro h1 h2
    simp [h1, h2]
  · intro h1 h2 h3 h4
    simp only [h1, h2, if_true]
    have ha : inp.mlx90363_alpha < 65536 := by omega
    rw [toUInt16_of_lt _ ha]
    unfold toUInt16
    simp
    omega

/-- Witness for C6: the sample state in MLX90363 mode with `cycles_since_update = 20`; a
reply with status OK and angle 16382 stores `16384 - 16382 = 2`, a faulty reply keeps the
stored 16383. -/
theorem C6_mlx_raw_angle_fallback_witness :
    (estimateState sampleEnv sampleInput
      (sampleState ControlMode.control_mode_torque
        EncoderMode.encoder_mode_mlx90363)).results.raw_enc_value = 16384 - 16382 ∧
    (estimateState sampleEnv { sampleInput with mlx90363_status_ok := false }
      (sampleState ControlMode.control_mode_torque
        EncoderMode.encoder_mode_mlx90363)).results.raw_enc_value = 16383 :=
  ⟨(C6_mlx_raw_angle_fallback sampleEnv sampleInput
      (sampleState ControlMode.control_mode_torque EncoderMode.encoder_mode_mlx90363)
      rfl).2.2.2.2 (by decide) rfl (by decide) (by decide),
   (C6_mlx_raw_angle_fallback sampleEnv { sampleInput with mlx90363_status_ok := false }
      (sampleState ControlMode.control_mode_torque EncoderMode.encoder_mode_mlx90363)
      rfl).2.1 (Or.inr rfl)⟩

/-! ### Mode gating of the outer loops -/

theorem newCalls_append (s t : State F P) (l : List (Call F)) (h : t.trace = s.trace ++ l) :
    newCalls s t = l := by
  simp [newCalls, h]

theorem positionActive_iff (m : ControlMode) :
    positionActive m = true ↔
      m = ControlMode.control_mode_position ∨ m = ControlMode.control_mode_position_velocity := by
  simp [positionActive]

theorem velocityActive_iff (m : ControlMode) :
    velocityActive m = true ↔
      m = ControlMode.control_mode_velocity ∨ m = ControlMode.control_mode_position ∨
        m = ControlMode.control_mode_position_velocity := by
  simp [velocityActive]

theorem runPositionControl_newCalls (ops : PIDOps F P) (s : State F P) :
    newCalls s (runPositionControl ops s) =
      if positionActive s.parameters.control_mode then
        [Call.pid PIDName.pid_position (PIDCall.setMode PIDMode.AUTO_MODE),
         Call.pid PIDName.pid_position
           (PIDCall.setTunings s.calibration.position_kp s.calibration.position_ki 0),
         Call.pid PIDName.pid_position (PIDCall.setInputLimits (-1) 1),
         Call.pid PIDName.pid_position
           (PIDCall.setOutputLimits (-s.calibration.velocity_limit) s.calibration.velocity_limit),
         Call.pid PIDName.pid_position (PIDCall.setSetPoint 0),
         Call.pid PIDName.pid_position
           (PIDCall.setProcessValue (s.results.rotor_pos - s.parameters.position_sp)),
         Call.pid PIDName.pid_position (PIDCall.setBias 0),
         Call.pid PIDName.pid_position PIDCall.compute]
      else [Call.pid PIDName.pid_position (PIDCall.setMode PIDMode.MANUAL_MODE)] := by
  unfold runPositionControl
  split_ifs <;> exact newCalls_append _ _ _ rfl

theorem runVelocityControl_newCalls (ops : PIDOps F P) (s : State F P) :
    newCalls s (runVelocityControl ops s) =
      if velocityActive s.parameters.control_mode then
        [Call.pid PIDName.pid_velocity (PIDCall.setMode PIDMode.AUTO_MODE),
         Call.pid PIDName.pid_velocity
           (PIDCall.setTunings s.calibration.velocity_kp s.calibration.velocity_ki 0),
         Call.pid PIDName.pid_velocity (PIDCall.setInputLimits (-40) 40),
         Call.pid PIDName.pid_velocity
           (PIDCall.setOutputLimits (-s.calibration.torque_limit) s.calibration.torque_limit),
         Call.pid PIDName.pid_velocity (PIDCall.setSetPoint s.parameters.velocity_sp),
         Call.pid PIDName.pid_velocity (PIDCall.setProcessValue s.results.rotor_vel),
         Call.pid PIDName.pid_velocity (PIDCall.setBias 0),
         Call.pid PIDName.pid_velocity PIDCall.compute]
      else [Call.pid PIDName.pid_velocity (PIDCall.setMode PIDMode.MANUAL_MODE)] := by
  unfold runVelocityControl
  split_ifs <;> exact newCalls_append _ _ _ rfl

theorem watchdogCheck_pid_position (env : Env F) (now : Nat) (s : State F P) :
    (watchdogCheck env now s).pid_position = s.pid_position := by
  unfold watchdogCheck; split_ifs <;> rfl

theorem watchdogCheck_pid_velocity (env : Env F) (now : Nat) (s : State F P) :
    (watchdogCheck env now s).pid_velocity = s.pid_velocity := by
  unfold watchdogCheck; split_ifs <;> rfl

theorem applyExternal_pid_position (e : External F) (s : State F P) :
    (applyExternal e s).pid_position = s.pid_position := by
  unfold applyExternal; split <;> rfl

theorem applyExternal_pid_velocity (e : External F) (s : State F P) :
    (applyExternal e s).pid_velocity = s.pid_velocity := by
  unfold applyExternal; split <;> rfl

theorem controlCycle_pid_position_held (env : Env F) (ops : PIDOps F P) (e : External F)
    (inp : CycleInput F) (s : State F P)
    (h : positionActive (modeInCycle env e inp s) = false) :
    (controlCycle env ops inp (applyExternal e s)).pid_position =
      ops.setMode s.pid_position PIDMode.MANUAL_MODE := by
  have h1 : positionActive (estimateState env inp
      (watchdogCheck env inp.now (applyExternal e s))).parameters.control_mode = false := h
  simp only [controlCycle, afterWatchdog, runCurrentControl_pid_position,
    runVelocityControl_pid_position]
  rw [runPositionControl_inactive ops _ h1]
  show ops.setMode (watchdogCheck env inp.now (applyExternal e s)).pid_position _ = _
  rw [watchdogCheck_pid_position, applyExternal_pid_position]

theorem controlCycle_pid_velocity_held (env : Env F) (ops : PIDOps F P) (e : External F)
    (inp : CycleInput F) (s : State F P)
    (h : velocityActive (modeInCycle env e inp s) = false) :
    (controlCycle env ops inp (applyExternal e s)).pid_velocity =
      ops.setMode s.pid_velocity PIDMode.MANUAL_MODE := by
  have h1 : velocityActive (runPositionControl ops (estimateState env inp
      (watchdogCheck env inp.now (applyExternal e s)))).parameters.control_mode = false := by
    rw [runPositionControl_control_mode]; exact h
  simp only [controlCycle, afterWatchdog, runCurrentControl_pid_velocity]
  rw [runVelocityControl_inactive ops _ h1]
  show ops.setMode (runPositionControl ops (estimateState env inp
    (watchdogCheck env inp.now (applyExternal e s)))).pid_velocity _ = _
  rw [runPositionControl_pid_velocity, estimateState_pid_velocity, watchdogCheck_pid_velocity,
    applyExternal_pid_velocity]

theorem runCycles_position_held {α : Type} (env : Env F) (ops : PIDOps F P) (acc : P → α)
    (hacc : ∀ p, acc (ops.setMode p PIDMode.MANUAL_MODE) = acc p)
    (run : List (External F × CycleInput F)) :
    ∀ s : State F P, heldThroughout env ops positionActive run s = true →
      acc (runCycles env ops run s).pid_position = acc s.pid_position := by
  induction run with
  | nil => intro s _; rfl
  | cons x rest ih =>
    intro s h
    obtain ⟨e, inp⟩ := x
    simp only [heldThroughout, Bool.and_eq_true, Bool.not_eq_true'] at h
    show acc (runCycles env ops rest (controlCycle env ops inp (applyExternal e s))).pid_position
      = _
    rw [ih _ h.2, controlCycle_pid_position_held env ops e inp s h.1, hacc]

theorem runCycles_velocity_held {α : Type} (env : Env F) (ops : PIDOps F P) (acc : P → α)
    (hacc : ∀ p, acc (ops.setMode p PIDMode.MANUAL_MODE) = acc p)
    (run : List (External F × CycleInput F)) :
    ∀ s : State F P, heldThroughout env ops velocityActive run s = true →
      acc (runCycles env ops run s).pid_velocity = acc s.pid_velocity := by
  induction run with
  | nil => intro s _; rfl
  | cons x rest ih =>
    intro s h
    obtain ⟨e, inp⟩ := x
    simp only [heldThroughout, Bool.and_eq_true, Bool.not_eq_true'] at h
    show acc (runCycles env ops rest (controlCycle env ops inp (applyExternal e s))).pid_velocity
      = _
    rw [ih _ h.2, controlCycle_pid_velocity_held env ops e inp s h.1, hacc]

/-- C7: `runPositionControl` calls `setMode(AUTO_MODE)` and `compute` on the position PID
exactly when the mode is Position or PositionVelocity, and `runVelocityControl` does so on
the velocity PID exactly when the mode is Velocity, Position or PositionVelocity; in every
other mode the only call is `setMode(MANUAL_MODE)` and `parameters` (hence `velocity_sp`,
respectively `torque_sp`) is unchanged.  Over any run of cycles in each of which a loop's
activation condition is false, every observable `acc` of that loop's PID object that
`setMode(MANUAL_MODE)` does not alter has the same value after the run as before. -/
theorem C7_outer_loop_mode_gating (env : Env F) (ops : PIDOps F P) (s : State F P) :
    ((Call.pid PIDName.pid_position (PIDCall.setMode PIDMode.AUTO_MODE) ∈
        newCalls s (runPositionControl ops s) ↔
      s.parameters.control_mode = ControlMode.control_mode_position ∨
        s.parameters.control_mode = ControlMode.control_mode_position_velocity) ∧
     (Call.pid PIDName.pid_position PIDCall.compute ∈ newCalls s (runPositionControl ops s) ↔
      s.parameters.control_mode = ControlMode.control_mode_position ∨
        s.parameters.control_mode = ControlMode.control_mode_position_velocity) ∧
     (¬ (s.parameters.control_mode = ControlMode.control_mode_position ∨
        s.parameters.control_mode = ControlMode.control_mode_position_velocity) →
      newCalls s (runPositionControl ops s) =
        [Call.pid PIDName.pid_position (PIDCall.setMode PIDMode.MANUAL_MODE)] ∧
      (runPositionControl ops s).pid_position =
        ops.setMode s.pid_position PIDMode.MANUAL_MODE ∧
      (runPositionControl ops s).parameters = s.parameters)) ∧
    ((Call.pid PIDName.pid_velocity (PIDCall.setMode PIDMode.AUTO_MODE) ∈
        newCalls s (runVelocityControl ops s) ↔
      s.parameters.control_mode = ControlMode.control_mode_velocity ∨
        s.parameters.control_mode = ControlMode.control_mode_position ∨
        s.parameters.control_mode = ControlMode.control_mode_position_velocity) ∧
     (Call.pid PIDName.pid_velocity PIDCall.compute ∈ newCalls s (runVelocityControl ops s) ↔
      s.parameters.control_mode = ControlMode.control_mode_velocity ∨
        s.parameters.control_mode = ControlMode.control_mode_position ∨
        s.parameters.control_mode = ControlMode.control_mode_position_velocity) ∧
     (¬ (s.parameters.control_mode = ControlMode.control_mode_velocity ∨
        s.parameters.control_mode = ControlMode.control_mode_position ∨
        s.parameters.control_mode = ControlMode.control_mode_position_velocity) →
      newCalls s (runVelocityControl ops s) =
        [Call.pid PIDName.pid_velocity (PIDCall.setMode PIDMode.MANUAL_MODE)] ∧
      (runVelocityControl ops s).pid_velocity =
        ops.setMode s.pid_velocity PIDMode.MANUAL_MODE ∧
      (runVelocityControl ops s).parameters = s.parameters)) ∧
    (∀ (α : Type) (acc : P → α), (∀ p, acc (ops.setMode p PIDMode.MANUAL_MODE) = acc p) →
      ∀ run : List (External F × CycleInput F),
        (heldThroughout env ops positionActive run s = true →
          acc (runCycles env ops run s).pid_position = acc s.pid_position) ∧
        (heldThroughout env ops velocityActive run s = true →
          acc (runCycles env ops run s).pid_velocity = acc s.pid_velocity)) := by
  refine ⟨⟨?_, ?_, ?_⟩, ⟨?_, ?_, ?_⟩, ?_⟩
  · rw [runPositionControl_newCalls, ← positionActive_iff]
    split_ifs with h <;> simp [h]
  · rw [runPositionControl_newCalls, ← positionActive_iff]
    split_ifs with h <;> simp [h]
  · intro h
    rw [← positionActive_iff, Bool.not_eq_true] at h
    rw [runPositionControl_newCalls, runPositionControl_inactive ops s h]
    simp [h]
  · rw [runVelocityControl_newCalls, ← velocityActive_iff]
    split_ifs with h <;> simp [h]
  · rw [runVelocityControl_newCalls, ← velocityActive_iff]
    split_ifs with h <;> simp [h]
  · intro h
    rw [← velocityActive_iff, Bool.not_eq_true] at h
    rw [runVelocityControl_newCalls, runVelocityControl_inactive ops s h]
    simp [h]
  · intro α acc hacc run
    exact ⟨runCycles_position_held env ops acc hacc run s,
      runCycles_velocity_held env ops acc hacc run s⟩

/-- Witness for C7: two cycles from the sample state in Torque mode (the watchdog fires and
switches to FocCurrent); the accumulators of the sample position and velocity PIDs keep
their value. -/
theorem C7_outer_loop_mode_gating_witness :
    (samplePIDOps.setMode samplePID PIDMode.MANUAL_MODE).accum = samplePID.accum ∧
    (runCycles sampleEnv samplePIDOps
      [(sampleExternal, sampleInput), (sampleExternal, sampleInput)]
      (sampleState ControlMode.control_mode_torque
        EncoderMode.encoder_mode_as5047d)).pid_position.accum = 3 ∧
    (runCycles sampleEnv samplePIDOps
      [(sampleExternal, sampleInput), (sampleExternal, sampleInput)]
      (sampleState ControlMode.control_mode_torque
        EncoderMode.encoder_mode_as5047d)).pid_velocity.accum = 3 ∧
    (runPositionControl samplePIDOps
      (sampleState ControlMode.control_mode_torque
        EncoderMode.encoder_mode_as5047d)).parameters =
      (sampleState ControlMode.control_mode_torque EncoderMode.encoder_mode_as5047d).parameters :=
  ⟨rfl,
   ((C7_outer_loop_mode_gating sampleEnv samplePIDOps
      (sampleState ControlMode.control_mode_torque EncoderMode.encoder_mode_as5047d)).2.2
      ℚ SamplePID.accum (fun _ => rfl)
      [(sampleExternal, sampleInput), (sampleExternal, sampleInput)]).1 (by decide),
   ((C7_outer_loop_mode_gating sampleEnv samplePIDOps
      (sampleState ControlMode.control_mode_torque EncoderMode.encoder_mode_as5047d)).2.2
      ℚ SamplePID.accum (fun _ => rfl)
      [(sampleExternal, sampleInput), (sampleExternal, sampleInput)]).2 (by decide),
   ((C7_outer_loop_mode_gating sampleEnv samplePIDOps
      (sampleState ControlMode.control_mode_torque EncoderMode.encoder_mode_as5047d)).1.2.2
      (by decide)).2.2⟩

/-! ### Current setpoints -/

theorem runCurrentControl_foc_newCalls (env : Env F) (ops : PIDOps F P) (s : State F P)
    (h1 : s.parameters.control_mode ≠ ControlMode.control_mode_raw_phase_pwm)
    (h2 : s.parameters.control_mode ≠ ControlMode.control_mode_pwm_drive) :
    newCalls s (runCurrentControl env ops s) =
      currentArmCalls s ++ currentComputeCalls env s ++ dutyCalls env ops s := by
  apply newCalls_append
  rw [runCurrentControl_foc env ops s h1 h2]
  simp

/-- C8: the setpoints selected by `runCurrentControl` are `foc_d_current_sp` and
`foc_q_current_sp` in FocCurrent mode; in every other mode except RawPwm they are `0` and
`torque_sp / motor_torque_const`, whatever the externally supplied d/q setpoints are.  When
the current PIDs run, these are the arguments of the two `setSetPoint` calls. -/
theorem C8_current_setpoint_selection (env : Env F) (ops : PIDOps F P) (s : State F P) :
    (s.parameters.control_mode = ControlMode.control_mode_foc_current →
      currentSetpoints s = (s.parameters.foc_d_current_sp, s.parameters.foc_q_current_sp)) ∧
    (s.parameters.control_mode ≠ ControlMode.control_mode_foc_current →
      s.parameters.control_mode ≠ ControlMode.control_mode_raw_phase_pwm →
      currentSetpoints s = (0, s.parameters.torque_sp / s.calibration.motor_torque_const) ∧
      ∀ d q : F,
        currentSetpoints
          { s with parameters :=
            { s.parameters with foc_d_current_sp := d, foc_q_current_sp := q } } =
          currentSetpoints s) ∧
    (s.parameters.control_mode ≠ ControlMode.control_mode_raw_phase_pwm →
      s.parameters.control_mode ≠ ControlMode.control_mode_pwm_drive →
      newCalls s (runCurrentControl env ops s) =
        currentArmCalls s ++ currentComputeCalls env s ++ dutyCalls env ops s ∧
      Call.pid PIDName.pid_id (PIDCall.setSetPoint (currentSetpoints s).1) ∈
        newCalls s (runCurrentControl env ops s) ∧
      Call.pid PIDName.pid_iq (PIDCall.setSetPoint (currentSetpoints s).2) ∈
        newCalls s (runCurrentControl env ops s)) := by
  refine ⟨?_, ?_, ?_⟩
  · intro h
    simp [currentSetpoints, h]
  · intro h _
    constructor
    · simp [currentSetpoints, h]
    · intro d q
      simp [currentSetpoints, h]
  · intro h1 h2
    rw [runCurrentControl_foc_newCalls env ops s h1 h2]
    refine ⟨rfl, ?_, ?_⟩ <;> simp [currentComputeCalls]

/-- Witness for C8: the sample state in FocCurrent mode (setpoints 4 and 5) and in Torque
mode (torque setpoint 3, torque constant 1). -/
theorem C8_current_setpoint_selection_witness :
    currentSetpoints (sampleState ControlMode.control_mode_foc_current
      EncoderMode.encoder_mode_as5047d) = (4, 5) ∧
    currentSetpoints (sampleState ControlMode.control_mode_torque
      EncoderMode.encoder_mode_as5047d) = (0, 3 / 1) :=
  ⟨(C8_current_setpoint_selection sampleEnv samplePIDOps
      (sampleState ControlMode.control_mode_foc_current EncoderMode.encoder_mode_as5047d)).1 rfl,
   ((C8_current_setpoint_selection sampleEnv samplePIDOps
      (sampleState ControlMode.control_mode_torque EncoderMode.encoder_mode_as5047d)).2.1
      (by decide) (by decide)).1⟩

/-! ### Saturation -/

theorem samplePIDOps_clamped : PIDOutputClamped (samplePIDOps : PIDOps F (SamplePID F))
    sampleLimits where
  setOutputLimits _ _ _ := rfl
  setSetPoint _ _ := rfl
  setProcessValue _ _ := rfl
  setBias _ _ := rfl
  compute p h := by
    have h' : p.out_min ≤ p.out_max := h
    cases hm : p.mode <;>
      simp only [samplePIDOps, sampleLimits, hm] <;>
      exact ⟨le_max_left _ _, max_le h' (min_le_left _ _)⟩

theorem positionPIDConfigured_limits (ops : PIDOps F P) (limits : P → F × F)
    (hpid : PIDOutputClamped ops limits) (s : State F P) :
    limits (positionPIDConfigured ops s) =
      (-s.calibration.velocity_limit, s.calibration.velocity_limit) := by
  simp only [positionPIDConfigured, hpid.setBias, hpid.setProcessValue, hpid.setSetPoint,
    hpid.setOutputLimits]

theorem velocityPIDConfigured_limits (ops : PIDOps F P) (limits : P → F × F)
    (hpid : PIDOutputClamped ops limits) (s : State F P) :
    limits (velocityPIDConfigured ops s) =
      (-s.calibration.torque_limit, s.calibration.torque_limit) := by
  simp only [velocityPIDConfigured, hpid.setBias, hpid.setProcessValue, hpid.setSetPoint,
    hpid.setOutputLimits]

theorem idPIDConfigured_limits (env : Env F) (ops : PIDOps F P) (limits : P → F × F)
    (hpid : PIDOutputClamped ops limits) (s : State F P) :
    limits (idPIDConfigured env ops s) = (-s.results.average_vin, s.results.average_vin) := by
  simp only [idPIDConfigured, idPIDArmed, hpid.setBias, hpid.setProcessValue, hpid.setSetPoint,
    hpid.setOutputLimits]

theorem iqPIDConfigured_limits (env : Env F) (ops : PIDOps F P) (limits : P → F × F)
    (hpid : PIDOutputClamped ops limits) (s : State F P) :
    limits (iqPIDConfigured env ops s) = (-s.results.average_vin, s.results.average_vin) := by
  simp only [iqPIDConfigured, iqPIDArmed, hpid.setBias, hpid.setProcessValue, hpid.setSetPoint,
    hpid.setOutputLimits]

theorem compute_within (ops : PIDOps F P) (limits : P → F × F)
    (hpid : PIDOutputClamped ops limits) (p : P) (L : F) (hL : 0 ≤ L)
    (hlim : limits p = (-L, L)) : -L ≤ (ops.compute p).1 ∧ (ops.compute p).1 ≤ L := by
  have h := hpid.compute p
  rw [hlim] at h
  exact h (by simp only; linarith)

/-- C9: assume the PID primitive is `PIDOutputClamped`: `compute` returns a value inside the
output limits last configured on the object.  Then, for every state (hence every process
value and setpoint): in a position mode with `velocity_limit >= 0`, `runPositionControl`
leaves `velocity_sp` in `[-velocity_limit, velocity_limit]`; in a velocity-including mode
with `torque_limit >= 0`, `runVelocityControl` leaves `torque_sp` in
`[-torque_limit, torque_limit]`; in every mode where the current PIDs run, with
`average_vin >= 0`, `vd` and `vq` lie in `[-average_vin, average_vin]` and, when
`average_vin > 0`, the normalized voltages lie in `[-1, 1]`.  The limits in force at each
`compute` are those of the state the function is called in, and the `average_vin` that
`runCurrentControl` sees in a cycle is the one `estimateState` measured in that cycle. -/
theorem C9_saturation (env : Env F) (ops : PIDOps F P) (limits : P → F × F)
    (hpid : PIDOutputClamped ops limits) (inp : CycleInput F) (s : State F P) :
    (s.parameters.control_mode = ControlMode.control_mode_position ∨
        s.parameters.control_mode = ControlMode.control_mode_position_velocity →
      0 ≤ s.calibration.velocity_limit →
      limits (positionPIDConfigured ops s) =
        (-s.calibration.velocity_limit, s.calibration.velocity_limit) ∧
      (runPositionControl ops s).parameters.velocity_sp =
        (ops.compute (positionPIDConfigured ops s)).1 ∧
      -s.calibration.velocity_limit ≤ (runPositionControl ops s).parameters.velocity_sp ∧
      (runPositionControl ops s).parameters.velocity_sp ≤ s.calibration.velocity_limit) ∧
    (s.parameters.control_mode = ControlMode.control_mode_velocity ∨
        s.parameters.control_mode = ControlMode.control_mode_position ∨
        s.parameters.control_mode = ControlMode.control_mode_position_velocity →
      0 ≤ s.calibration.torque_limit →
      limits (velocityPIDConfigured ops s) =
        (-s.calibration.torque_limit, s.calibration.torque_limit) ∧
      (runVelocityControl ops s).parameters.torque_sp =
        (ops.compute (velocityPIDConfigured ops s)).1 ∧
      -s.calibration.torque_limit ≤ (runVelocityControl ops s).parameters.torque_sp ∧
      (runVelocityControl ops s).parameters.torque_sp ≤ s.calibration.torque_limit) ∧
    (s.parameters.control_mode ≠ ControlMode.control_mode_raw_phase_pwm →
      s.parameters.control_mode ≠ ControlMode.control_mode_pwm_drive →
      0 ≤ s.results.average_vin →
      limits (idPIDConfigured env ops s) = (-s.results.average_vin, s.results.average_vin) ∧
      limits (iqPIDConfigured env ops s) = (-s.results.average_vin, s.results.average_vin) ∧
      commandVoltages env ops s =
        ((ops.compute (idPIDConfigured env ops s)).1,
         (ops.compute (iqPIDConfigured env ops s)).1) ∧
      (-s.results.average_vin ≤ (commandVoltages env ops s).1 ∧
        (commandVoltages env ops s).1 ≤ s.results.average_vin) ∧
      (-s.results.average_vin ≤ (commandVoltages env ops s).2 ∧
        (commandVoltages env ops s).2 ≤ s.results.average_vin) ∧
      (0 < s.results.average_vin →
        (-1 ≤ (normVoltages env ops s).1 ∧ (normVoltages env ops s).1 ≤ 1) ∧
        (-1 ≤ (normVoltages env ops s).2 ∧ (normVoltages env ops s).2 ≤ 1))) ∧
    ((runVelocityControl ops (runPositionControl ops
        (estimateState env inp s))).results.average_vin =
      env.adcValueToVoltage
        (adcAverage env inp.ivsense_adc_samples env.ivsense_channel_vin) ∧
     (runVelocityControl ops (runPositionControl ops
        (estimateState env inp s))).calibration = s.calibration) := by
  refine ⟨?_, ?_, ?_, ?_⟩
  · intro hm hL
    have hact : positionActive s.parameters.control_mode = true :=
      (positionActive_iff _).mpr hm
    have hlim := positionPIDConfigured_limits ops limits hpid s
    have hsp : (runPositionControl ops s).parameters.velocity_sp =
        (ops.compute (positionPIDConfigured ops s)).1 := by
      simp [runPositionControl, hact]
    have hin := compute_within ops limits hpid _ _ hL hlim
    exact ⟨hlim, hsp, by rw [hsp]; exact hin.1, by rw [hsp]; exact hin.2⟩
  · intro hm hL
    have hact : velocityActive s.parameters.control_mode = true :=
      (velocityActive_iff _).mpr hm
    have hlim := velocityPIDConfigured_limits ops limits hpid s
    have hsp : (runVelocityControl ops s).parameters.torque_sp =
        (ops.compute (velocityPIDConfigured ops s)).1 := by
      simp [runVelocityControl, hact]
    have hin := compute_within ops limits hpid _ _ hL hlim
    exact ⟨hlim, hsp, by rw [hsp]; exact hin.1, by rw [hsp]; exact hin.2⟩
  · intro _ h2 hv
    have hd := idPIDConfigured_limits env ops limits hpid s
    have hq := iqPIDConfigured_limits env ops limits hpid s
    have hcv : commandVoltages env ops s =
        ((ops.compute (idPIDConfigured env ops s)).1,
         (ops.compute (iqPIDConfigured env ops s)).1) := by
      simp [commandVoltages, h2]
    have hind := compute_within ops limits hpid _ _ hv hd
    have hinq := compute_within ops limits hpid _ _ hv hq
    refine ⟨hd, hq, hcv, by rw [hcv]; exact hind, by rw [hcv]; exact hinq, ?_⟩
    intro hpos
    simp only [normVoltages, hcv]
    refine ⟨⟨?_, ?_⟩, ⟨?_, ?_⟩⟩
    · rw [le_div_iff₀ hpos]; linarith [hind.1]
    · rw [div_le_iff₀ hpos]; linarith [hind.2]
    · rw [le_div_iff₀ hpos]; linarith [hinq.1]
    · rw [div_le_iff₀ hpos]; linarith [hinq.2]
  · constructor
    · rw [runVelocityControl_results, runPositionControl_results]
      rfl
    · rw [runVelocityControl_calibration, runPositionControl_calibration]
      rfl

/-- Witness for C9: the clamping sample PID, the sample state in Position mode (velocity
limit 10, torque limit 2) and in Torque mode (bus voltage 12). -/
theorem C9_saturation_witness :
    (-10 ≤ (runPositionControl samplePIDOps
        (sampleState ControlMode.control_mode_position
          EncoderMode.encoder_mode_as5047d)).parameters.velocity_sp ∧
      (runPositionControl samplePIDOps
        (sampleState ControlMode.control_mode_position
          EncoderMode.encoder_mode_as5047d)).parameters.velocity_sp ≤ 10) ∧
    (-2 ≤ (runVelocityControl samplePIDOps
        (sampleState ControlMode.control_mode_position
          EncoderMode.encoder_mode_as5047d)).parameters.torque_sp ∧
      (runVelocityControl samplePIDOps
        (sampleState ControlMode.control_mode_position
          EncoderMode.encoder_mode_as5047d)).parameters.torque_sp ≤ 2) ∧
    (-1 ≤ (normVoltages sampleEnv samplePIDOps
        (sampleState ControlMode.control_mode_torque EncoderMode.encoder_mode_as5047d)).2 ∧
      (normVoltages sampleEnv samplePIDOps
        (sampleState ControlMode.control_mode_torque EncoderMode.encoder_mode_as5047d)).2 ≤ 1) :=
  ⟨((C9_saturation sampleEnv samplePIDOps sampleLimits samplePIDOps_clamped sampleInput
      (sampleState ControlMode.control_mode_position EncoderMode.encoder_mode_as5047d)).1
      (Or.inl rfl) (by norm_num [sampleState, sampleCalibration])).2.2,
   ((C9_saturation sampleEnv samplePIDOps sampleLimits samplePIDOps_clamped sampleInput
      (sampleState ControlMode.control_mode_position EncoderMode.encoder_mode_as5047d)).2.1
      (Or.inr (Or.inl rfl)) (by norm_num [sampleState, sampleCalibration])).2.2,
   (((C9_saturation sampleEnv samplePIDOps sampleLimits samplePIDOps_clamped sampleInput
      (sampleState ControlMode.control_mode_torque EncoderMode.encoder_mode_as5047d)).2.2.1
      (by decide) (by decide) (by norm_num [sampleState, sampleResults])).2.2.2.2.2
      (by norm_num [sampleState, sampleResults])).2⟩

/-! ### Velocity filter -/

/-- C10: `estimateState` sets `rotor_vel` to `alpha * v + (1 - alpha) * v0`, where `v0` is
the previous `rotor_vel`, `alpha` is `calibration.velocity_filter_param` and `v` is the
normalized angle delta times `current_control_freq`.  The delta is the normalized one: with
`delta = enc_pos - prev_enc_pos`, it is `delta + 2*pi` when `delta < -pi`, `delta - 2*pi`
when `delta > pi` (for positive `pi`), and `delta` otherwise. -/
theorem C10_velocity_filter (env : Env F) (inp : CycleInput F) (s : State F P) :
    (estimateState env inp s).results.rotor_vel =
      s.calibration.velocity_filter_param *
          (normEncPosDiff env inp s * env.current_control_freq) +
        (1 - s.calibration.velocity_filter_param) * s.results.rotor_vel ∧
    normEncPosDiff env inp s =
      (unwrapStep env s.results.rotor_revs
        (encPosOf env s.calibration (readRawEncValue env inp s) - s.results.enc_pos)).2 ∧
    (encPosOf env s.calibration (readRawEncValue env inp s) - s.results.enc_pos < -env.pi →
      (estimateState env inp s).results.rotor_vel =
        s.calibration.velocity_filter_param *
            ((encPosOf env s.calibration (readRawEncValue env inp s) - s.results.enc_pos
              + 2 * env.pi) * env.current_control_freq) +
          (1 - s.calibration.velocity_filter_param) * s.results.rotor_vel) ∧
    (0 < env.pi →
      env.pi < encPosOf env s.calibration (readRawEncValue env inp s) - s.results.enc_pos →
      (estimateState env inp s).results.rotor_vel =
        s.calibration.velocity_filter_param *
            ((encPosOf env s.calibration (readRawEncValue env inp s) - s.results.enc_pos
              - 2 * env.pi) * env.current_control_freq) +
          (1 - s.calibration.velocity_filter_param) * s.results.rotor_vel) ∧
    (-env.pi ≤ encPosOf env s.calibration (readRawEncValue env inp s) - s.results.enc_pos →
      encPosOf env s.calibration (readRawEncValue env inp s) - s.results.enc_pos ≤ env.pi →
      (estimateState env inp s).results.rotor_vel =
        s.calibration.velocity_filter_param *
            ((encPosOf env s.calibration (readRawEncValue env inp s) - s.results.enc_pos)
              * env.current_control_freq) +
          (1 - s.calibration.velocity_filter_param) * s.results.rotor_vel) := by
  have hvel : (estimateState env inp s).results.rotor_vel =
      s.calibration.velocity_filter_param *
          (normEncPosDiff env inp s * env.current_control_freq) +
        (1 - s.calibration.velocity_filter_param) * s.results.rotor_vel := rfl
  have hnorm : normEncPosDiff env inp s =
      (unwrapStep env s.results.rotor_revs
        (encPosOf env s.calibration (readRawEncValue env inp s) - s.results.enc_pos)).2 := rfl
  refine ⟨hvel, hnorm, ?_, ?_, ?_⟩
  · intro h
    rw [hvel, hnorm, unwrapStep_below env _ _ h]
  · intro hpi h
    rw [hvel, hnorm, unwrapStep_above env hpi _ _ h]
  · intro h1 h2
    rw [hvel, hnorm, unwrapStep_within env _ _ h1 h2]

/-- Witness for C10: the sample state (`alpha = 1/2`, `v0 = 8`, frequency 20000) with
previous raw angle 16383 and new raw angle 2, where the raw delta is below `-pi`. -/
theorem C10_velocity_filter_witness :
    (estimateState sampleEnv sampleInput
      (sampleState ControlMode.control_mode_torque
        EncoderMode.encoder_mode_as5047d)).results.rotor_vel =
      (sampleState ControlMode.control_mode_torque
        EncoderMode.encoder_mode_as5047d).calibration.velocity_filter_param *
          ((encPosOf sampleEnv
              (sampleState ControlMode.control_mode_torque
                EncoderMode.encoder_mode_as5047d).calibration
              (readRawEncValue sampleEnv sampleInput
                (sampleState ControlMode.control_mode_torque
                  EncoderMode.encoder_mode_as5047d)) -
            (sampleState ControlMode.control_mode_torque
              EncoderMode.encoder_mode_as5047d).results.enc_pos
            + 2 * sampleEnv.pi) * sampleEnv.current_control_freq) +
        (1 - (sampleState ControlMode.control_mode_torque
          EncoderMode.encoder_mode_as5047d).calibration.velocity_filter_param) *
          (sampleState ControlMode.control_mode_torque
            EncoderMode.encoder_mode_as5047d).results.rotor_vel :=
  (C10_velocity_filter sampleEnv sampleInput
    (sampleState ControlMode.control_mode_torque EncoderMode.encoder_mode_as5047d)).2.2.1
    (by rw [sample_encPosOf]; norm_num [sampleState, sampleResults, sampleEnv])

/-! ### Bypass modes of the current loop -/

theorem runCurrentControl_raw (env : Env F) (ops : PIDOps F P) (s : State F P)
    (h : s.parameters.control_mode = ControlMode.control_mode_raw_phase_pwm) :
    runCurrentControl env ops s =
      { s with
        trace := s.trace ++
          [Call.setPWMDutyCycle 0 s.parameters.phase0,
           Call.setPWMDutyCycle 1 s.parameters.phase1,
           Call.setPWMDutyCycle 2 s.parameters.phase2] } := by
  simp [runCurrentControl, h]

theorem runCurrentControl_pwm_drive (env : Env F) (ops : PIDOps F P) (s : State F P)
    (h : s.parameters.control_mode = ControlMode.control_mode_pwm_drive) :
    runCurrentControl env ops s =
      { s with
        pid_id := idPIDArmed ops s
        pid_iq := iqPIDArmed ops s
        results :=
          { s.results with
            foc_d_current := (measuredCurrents env s).1
            foc_q_current := (measuredCurrents env s).2 }
        trace := s.trace ++ currentArmCalls s ++ dutyCalls env ops s } := by
  simp [runCurrentControl, h]

/-- C11: in RawPwm mode `runCurrentControl` only appends the three gate driver calls
`setPWMDutyCycle(0, phase0)`, `setPWMDutyCycle(1, phase1)`, `setPWMDutyCycle(2, phase2)` to
the trace: no PID method is called, the PID objects, `results` (hence `foc_d_current` and
`foc_q_current`), `parameters` and `calibration` are unchanged. -/
theorem C11_raw_pwm_bypass (env : Env F) (ops : PIDOps F P) (s : State F P)
    (h : s.parameters.control_mode = ControlMode.control_mode_raw_phase_pwm) :
    runCurrentControl env ops s =
      { s with
        trace := s.trace ++
          [Call.setPWMDutyCycle 0 s.parameters.phase0,
           Call.setPWMDutyCycle 1 s.parameters.phase1,
           Call.setPWMDutyCycle 2 s.parameters.phase2] } ∧
    newCalls s (runCurrentControl env ops s) =
      [Call.setPWMDutyCycle 0 s.parameters.phase0,
       Call.setPWMDutyCycle 1 s.parameters.phase1,
       Call.setPWMDutyCycle 2 s.parameters.phase2] ∧
    (∀ (w : PIDName) (c : PIDCall F),
      Call.pid w c ∉ newCalls s (runCurrentControl env ops s)) ∧
    (runCurrentControl env ops s).pid_id = s.pid_id ∧
    (runCurrentControl env ops s).pid_iq = s.pid_iq ∧
    (runCurrentControl env ops s).results.foc_d_current = s.results.foc_d_current ∧
    (runCurrentControl env ops s).results.foc_q_current = s.results.foc_q_current ∧
    (runCurrentControl env ops s).results = s.results := by
  have hrun := runCurrentControl_raw env ops s h
  have hcalls : newCalls s (runCurrentControl env ops s) =
      [Call.setPWMDutyCycle 0 s.parameters.phase0,
       Call.setPWMDutyCycle 1 s.parameters.phase1,
       Call.setPWMDutyCycle 2 s.parameters.phase2] := by
    apply newCalls_append
    rw [hrun]
  refine ⟨hrun, hcalls, ?_, ?_, ?_, ?_, ?_, ?_⟩
  · intro w c
    rw [hcalls]
    simp
  all_goals rw [hrun]

/-- Witness for C11: the sample state in RawPwm mode, whose phase commands are 1/4, 1/2
and 3/4. -/
theorem C11_raw_pwm_bypass_witness :
    newCalls (sampleState ControlMode.control_mode_raw_phase_pwm EncoderMode.encoder_mode_as5047d)
      (runCurrentControl sampleEnv samplePIDOps
        (sampleState ControlMode.control_mode_raw_phase_pwm
          EncoderMode.encoder_mode_as5047d)) =
      [Call.setPWMDutyCycle 0 (1 / 4), Call.setPWMDutyCycle 1 (1 / 2),
       Call.setPWMDutyCycle 2 (3 / 4)] :=
  (C11_raw_pwm_bypass sampleEnv samplePIDOps
    (sampleState ControlMode.control_mode_raw_phase_pwm EncoderMode.encoder_mode_as5047d)
    rfl).2.1

/-- C12: in DirectDriveVoltage mode `runCurrentControl` uses `vd = 0` and `vq = pwm_drive`,
calls `compute` on no PID object (the only PID calls are the mode, tunings and output limit
setters of lines 297-304), and passes `(0, pwm_drive / average_vin)` to the inverse Park
transform; this pair is the same whatever the averaged phase currents and the torque and
d/q current setpoints are. -/
theorem C12_direct_drive_bypass (env : Env F) (ops : PIDOps F P) (s : State F P)
    (h : s.parameters.control_mode = ControlMode.control_mode_pwm_drive) :
    commandVoltages env ops s = (0, s.parameters.pwm_drive) ∧
    normVoltages env ops s = (0, s.parameters.pwm_drive / s.results.average_vin) ∧
    dutyCycles env ops s =
      env.computeDutyCycles
        (env.transformInversePark 0 (s.parameters.pwm_drive / s.results.average_vin)
          (rotorAngle env s).1 (rotorAngle env s).2).1
        (if s.calibration.flip_phases then
          -(env.transformInversePark 0 (s.parameters.pwm_drive / s.results.average_vin)
            (rotorAngle env s).1 (rotorAngle env s).2).2
         else
          (env.transformInversePark 0 (s.parameters.pwm_drive / s.results.average_vin)
            (rotorAngle env s).1 (rotorAngle env s).2).2) ∧
    newCalls s (runCurrentControl env ops s) = currentArmCalls s ++ dutyCalls env ops s ∧
    (∀ w : PIDName, Call.pid w PIDCall.compute ∉ newCalls s (runCurrentControl env ops s)) ∧
    (runCurrentControl env ops s).pid_id = idPIDArmed ops s ∧
    (runCurrentControl env ops s).pid_iq = iqPIDArmed ops s ∧
    (∀ ia ib ic torque_sp d_sp q_sp : F,
      normVoltages env ops
        { s with
          results := { s.results with average_ia := ia, average_ib := ib, average_ic := ic }
          parameters :=
            { s.parameters with
              torque_sp := torque_sp, foc_d_current_sp := d_sp, foc_q_current_sp := q_sp } } =
        normVoltages env ops s) := by
  have hcv : commandVoltages env ops s = (0, s.parameters.pwm_drive) := by
    simp [commandVoltages, h]
  have hnv : normVoltages env ops s = (0, s.parameters.pwm_drive / s.results.average_vin) := by
    simp [normVoltages, hcv]
  have hrun := runCurrentControl_pwm_drive env ops s h
  have hcalls : newCalls s (runCurrentControl env ops s) =
      currentArmCalls s ++ dutyCalls env ops s := by
    apply newCalls_append
    rw [hrun]
    simp
  refine ⟨hcv, hnv, ?_, hcalls, ?_, by rw [hrun], by rw [hrun], ?_⟩
  · simp only [dutyCycles, hnv]
  · intro w
    rw [hcalls]
    simp [currentArmCalls, dutyCalls]
  · intro ia ib ic torque_sp d_sp q_sp
    rw [hnv]
    simp [normVoltages, commandVoltages, h]

/-- Witness for C12: the sample state in DirectDriveVoltage mode (`pwm_drive = 6`, bus
voltage 12). -/
theorem C12_direct_drive_bypass_witness :
    normVoltages sampleEnv samplePIDOps
      (sampleState ControlMode.control_mode_pwm_drive EncoderMode.encoder_mode_as5047d) =
      (0, 6 / 12) :=
  (C12_direct_drive_bypass sampleEnv samplePIDOps
    (sampleState ControlMode.control_mode_pwm_drive EncoderMode.encoder_mode_as5047d) rfl).2.1

/-! ### Feed-forward bias -/

/-- C13: whenever the current PIDs run (mode neither RawPwm nor DirectDriveVoltage), the only
`setBias` call on `pid_id` has argument `id_sp * motor_resistance` and the only one on
`pid_iq` has argument `iq_sp * motor_resistance + rotor_vel * motor_torque_const`, with
`id_sp`, `iq_sp` the setpoints selected in that call, and these are the biases of the objects
on which `compute` is called; whenever the position or the velocity PID runs, the only
`setBias` call on it has argument 0. -/
theorem C13_feed_forward_bias (env : Env F) (ops : PIDOps F P) (s : State F P) :
    (s.parameters.control_mode ≠ ControlMode.control_mode_raw_phase_pwm →
      s.parameters.control_mode ≠ ControlMode.control_mode_pwm_drive →
      (∀ b : F, Call.pid PIDName.pid_id (PIDCall.setBias b) ∈
          newCalls s (runCurrentControl env ops s) ↔
        b = (currentSetpoints s).1 * s.calibration.motor_resistance) ∧
      (∀ b : F, Call.pid PIDName.pid_iq (PIDCall.setBias b) ∈
          newCalls s (runCurrentControl env ops s) ↔
        b = (currentSetpoints s).2 * s.calibration.motor_resistance
          + s.results.rotor_vel * s.calibration.motor_torque_const) ∧
      (runCurrentControl env ops s).pid_id =
        (ops.compute (ops.setBias
          (ops.setProcessValue (ops.setSetPoint (idPIDArmed ops s) (currentSetpoints s).1)
            (measuredCurrents env s).1)
          ((currentSetpoints s).1 * s.calibration.motor_resistance))).2 ∧
      (runCurrentControl env ops s).pid_iq =
        (ops.compute (ops.setBias
          (ops.setProcessValue (ops.setSetPoint (iqPIDArmed ops s) (currentSetpoints s).2)
            (measuredCurrents env s).2)
          ((currentSetpoints s).2 * s.calibration.motor_resistance
            + s.results.rotor_vel * s.calibration.motor_torque_const))).2) ∧
    (s.parameters.control_mode = ControlMode.control_mode_position ∨
        s.parameters.control_mode = ControlMode.control_mode_position_velocity →
      ∀ b : F, Call.pid PIDName.pid_position (PIDCall.setBias b) ∈
          newCalls s (runPositionControl ops s) ↔ b = 0) ∧
    (s.parameters.control_mode = ControlMode.control_mode_velocity ∨
        s.parameters.control_mode = ControlMode.control_mode_position ∨
        s.parameters.control_mode = ControlMode.control_mode_position_velocity →
      ∀ b : F, Call.pid PIDName.pid_velocity (PIDCall.setBias b) ∈
          newCalls s (runVelocityControl ops s) ↔ b = 0) := by
  refine ⟨?_, ?_, ?_⟩
  · intro h1 h2
    rw [runCurrentControl_foc_newCalls env ops s h1 h2, runCurrentControl_foc env ops s h1 h2]
    refine ⟨?_, ?_, rfl, rfl⟩
    · intro b
      simp [currentArmCalls, currentComputeCalls, dutyCalls]
    · intro b
      simp [currentArmCalls, currentComputeCalls, dutyCalls]
  · intro hm b
    rw [runPositionControl_newCalls, if_pos ((positionActive_iff _).mpr hm)]
    simp
  · intro hm b
    rw [runVelocityControl_newCalls, if_pos ((velocityActive_iff _).mpr hm)]
    simp

/-- Witness for C13: the sample state in Torque mode (`iq_sp = 3/1`, resistance 1, velocity
8, torque constant 1) and in Position mode. -/
theorem C13_feed_forward_bias_witness :
    Call.pid PIDName.pid_iq (PIDCall.setBias (3 / 1 * 1 + 8 * 1)) ∈
      newCalls (sampleState ControlMode.control_mode_torque EncoderMode.encoder_mode_as5047d)
        (runCurrentControl sampleEnv samplePIDOps
          (sampleState ControlMode.control_mode_torque EncoderMode.encoder_mode_as5047d)) ∧
    Call.pid PIDName.pid_position (PIDCall.setBias 0) ∈
      newCalls (sampleState ControlMode.control_mode_position EncoderMode.encoder_mode_as5047d)
        (runPositionControl samplePIDOps
          (sampleState ControlMode.control_mode_position EncoderMode.encoder_mode_as5047d)) :=
  ⟨(((C13_feed_forward_bias sampleEnv samplePIDOps
      (sampleState ControlMode.control_mode_torque EncoderMode.encoder_mode_as5047d)).1
      (by decide) (by decide)).2.1 (3 / 1 * 1 + 8 * 1)).mpr rfl,
   ((C13_feed_forward_bias sampleEnv samplePIDOps
      (sampleState ControlMode.control_mode_position EncoderMode.encoder_mode_as5047d)).2.1
      (Or.inl rfl) 0).mpr rfl⟩

/-! ### Angle correction -/

/-- C15: `getEncoderAngleCorrection(x)` is 0 when `enc_ang_corr_scale` is 0, whatever the
table and `enc_ang_corr_offset` are, and then the corrected angle computed by `estimateState`
is `raw_enc_value * rad_per_enc_tick`; otherwise it is
`table(x) * enc_ang_corr_scale + enc_ang_corr_offset`. -/
theorem C15_angle_correction (env : Env F) (c : Calibration F) (x : F) :
    (c.enc_ang_corr_scale = 0 →
      getEncoderAngleCorrection env c x = 0 ∧
      (∀ (table : List Int) (offset : F),
        getEncoderAngleCorrection env
          { c with enc_ang_corr_table_values := table, enc_ang_corr_offset := offset } x = 0) ∧
      (∀ (inp : CycleInput F) (s : State F P), s.calibration = c →
        (estimateState env inp s).results.enc_pos =
          ((estimateState env inp s).results.raw_enc_value : F) * env.rad_per_enc_tick)) ∧
    (c.enc_ang_corr_scale ≠ 0 →
      getEncoderAngleCorrection env c x =
        env.enc_ang_corr_table c.enc_ang_corr_table_values x * c.enc_ang_corr_scale
          + c.enc_ang_corr_offset) := by
  constructor
  · intro h
    refine ⟨by simp [getEncoderAngleCorrection, h], ?_, ?_⟩
    · intro table offset
      simp [getEncoderAngleCorrection, h]
    · intro inp s hs
      have hc : s.calibration.enc_ang_corr_scale = 0 := by rw [hs]; exact h
      exact encPosOf_uncorrected env s.calibration hc (readRawEncValue env inp s)
  · intro h
    simp [getEncoderAngleCorrection, h]

/-- Witness for C15: the sample calibration (scale 0), and the same calibration with scale 2
and offset 1/10. -/
theorem C15_angle_correction_witness :
    getEncoderAngleCorrection sampleEnv sampleCalibration 1 = 0 ∧
    getEncoderAngleCorrection sampleEnv
      { sampleCalibration with enc_ang_corr_scale := 2, enc_ang_corr_offset := 1 / 10 } 1 =
      sampleEnv.enc_ang_corr_table [] 1 * 2 + 1 / 10 :=
  ⟨((@C15_angle_correction ℚ (SamplePID ℚ) _ sampleEnv sampleCalibration 1).1 rfl).1,
   (@C15_angle_correction ℚ (SamplePID ℚ) _ sampleEnv
      { sampleCalibration with enc_ang_corr_scale := 2, enc_ang_corr_offset := 1 / 10 } 1).2
      (by norm_num)⟩

/-! ### Writes to the calibration -/

theorem watchdogCheck_calibration (env : Env F) (now : Nat) (s : State F P) :
    (watchdogCheck env now s).calibration = s.calibration ∨
      (watchdogCheck env now s).calibration = (brakeMotor s).calibration := by
  unfold watchdogCheck
  split_ifs
  · exact Or.inr rfl
  · exact Or.inl rfl

theorem applyCoreOp_torque_const_zero (env : Env F) (ops : PIDOps F P) (op : CoreOp F)
    (s : State F P) (h : s.calibration.motor_torque_const = 0) :
    (applyCoreOp env ops op s).calibration.motor_torque_const = 0 := by
  cases op with
  | initControl m now => exact h
  | resetControlTimeout now => exact h
  | brakeMotor => rfl
  | watchdogCheck now =>
    show (watchdogCheck env now s).calibration.motor_torque_const = 0
    rcases watchdogCheck_calibration env now s with hc | hc
    · rw [hc]; exact h
    · rw [hc]; rfl
  | estimateState inp => exact h
  | runPositionControl =>
    show (runPositionControl ops s).calibration.motor_torque_const = 0
    rw [runPositionControl_calibration]; exact h
  | runVelocityControl =>
    show (runVelocityControl ops s).calibration.motor_torque_const = 0
    rw [runVelocityControl_calibration]; exact h
  | runCurrentControl =>
    show (runCurrentControl env ops s).calibration.motor_torque_const = 0
    rw [runCurrentControl_calibration]; exact h

theorem runCoreOps_torque_const_zero (env : Env F) (ops : PIDOps F P) (seq : List (CoreOp F)) :
    ∀ s : State F P, s.calibration.motor_torque_const = 0 →
      (runCoreOps env ops seq s).calibration.motor_torque_const = 0 := by
  induction seq with
  | nil => intro s h; exact h
  | cons op rest ih =>
    intro s h
    exact ih _ (applyCoreOp_torque_const_zero env ops op s h)

theorem runActivities_torque_const_zero (env : Env F) (ops : PIDOps F P)
    (acts : List (Activity F)) :
    ∀ s : State F P, s.calibration.motor_torque_const = 0 →
      (runActivities env ops acts s).calibration.motor_torque_const = 0 := by
  induction acts with
  | nil => intro s h; exact h
  | cons a rest ih =>
    intro s h
    apply ih
    cases a with
    | core op => exact applyCoreOp_torque_const_zero env ops op s h
    | command write => exact h

/-- C14: `estimateState`, `runPositionControl`, `runVelocityControl`, `runCurrentControl`,
`resetControlTimeout` and `initControl` leave `calibration` unchanged; `brakeMotor` changes
only `motor_torque_const`, to 0 (and the watchdog check changes `calibration` only by
calling `brakeMotor`).  Hence after `brakeMotor`, `motor_torque_const` is 0 after every
sequence of these operations, in particular after `resetControlTimeout`. -/
theorem C14_calibration_writes (env : Env F) (ops : PIDOps F P) (s : State F P) :
    (∀ inp : CycleInput F, (estimateState env inp s).calibration = s.calibration) ∧
    (runPositionControl ops s).calibration = s.calibration ∧
    (runVelocityControl ops s).calibration = s.calibration ∧
    (runCurrentControl env ops s).calibration = s.calibration ∧
    (∀ now : Nat, (resetControlTimeout now s).calibration = s.calibration) ∧
    (∀ (m : F) (now : Nat), (initControl ops m now s).calibration = s.calibration) ∧
    (brakeMotor s).calibration = { s.calibration with motor_torque_const := 0 } ∧
    (∀ now : Nat, (watchdogCheck env now s).calibration = s.calibration ∨
      (watchdogCheck env now s).calibration = (brakeMotor s).calibration) ∧
    (∀ seq : List (CoreOp F),
      (runCoreOps env ops seq (brakeMotor s)).calibration.motor_torque_const = 0) ∧
    (∀ (now : Nat) (seq : List (CoreOp F)),
      (runCoreOps env ops seq
        (resetControlTimeout now (brakeMotor s))).calibration.motor_torque_const = 0) := by
  refine ⟨fun _ => rfl, runPositionControl_calibration ops s,
    runVelocityControl_calibration ops s, runCurrentControl_calibration env ops s,
    fun _ => rfl, fun _ _ => rfl, rfl, fun now => watchdogCheck_calibration env now s, ?_, ?_⟩
  · intro seq
    exact runCoreOps_torque_const_zero env ops seq _ rfl
  · intro now seq
    exact runCoreOps_torque_const_zero env ops seq _ rfl

/-! ### The division by the torque constant -/

/-- C20: in every state reached from `brakeMotor` by operations of `control.cpp` and writes
of the command layer to `parameters`, `motor_torque_const` is 0.  If the mode is then
DirectDriveVoltage, Torque, Velocity, Position or PositionVelocity, `runCurrentControl`
executes the division of line 316 with divisor 0, the selected q setpoint is `torque_sp / 0`
and, in the four modes where the PIDs run, that quotient is passed to `pid_iq.setSetPoint`;
in RawPwm and FocCurrent modes the division is not executed. -/
theorem C20_division_by_zero_after_brake (env : Env F) (ops : PIDOps F P) (s0 : State F P)
    (acts : List (Activity F)) :
    (runActivities env ops acts (brakeMotor s0)).calibration.motor_torque_const = 0 ∧
    ((runActivities env ops acts (brakeMotor s0)).parameters.control_mode =
          ControlMode.control_mode_pwm_drive ∨
        (runActivities env ops acts (brakeMotor s0)).parameters.control_mode =
          ControlMode.control_mode_torque ∨
        (runActivities env ops acts (brakeMotor s0)).parameters.control_mode =
          ControlMode.control_mode_velocity ∨
        (runActivities env ops acts (brakeMotor s0)).parameters.control_mode =
          ControlMode.control_mode_position ∨
        (runActivities env ops acts (brakeMotor s0)).parameters.control_mode =
          ControlMode.control_mode_position_velocity →
      torqueDivisor (runActivities env ops acts (brakeMotor s0)) = some 0 ∧
      currentSetpoints (runActivities env ops acts (brakeMotor s0)) =
        (0, (runActivities env ops acts (brakeMotor s0)).parameters.torque_sp / 0) ∧
      ((runActivities env ops acts (brakeMotor s0)).parameters.control_mode ≠
          ControlMode.control_mode_pwm_drive →
        Call.pid PIDName.pid_iq (PIDCall.setSetPoint
            ((runActivities env ops acts (brakeMotor s0)).parameters.torque_sp / 0)) ∈
          newCalls (runActivities env ops acts (brakeMotor s0))
            (runCurrentControl env ops (runActivities env ops acts (brakeMotor s0))))) ∧
    ((runActivities env ops acts (brakeMotor s0)).parameters.control_mode =
          ControlMode.control_mode_raw_phase_pwm ∨
        (runActivities env ops acts (brakeMotor s0)).parameters.control_mode =
          ControlMode.control_mode_foc_current →
      torqueDivisor (runActivities env ops acts (brakeMotor s0)) = none) := by
  have hz := runActivities_torque_const_zero env ops acts (brakeMotor s0) rfl
  generalize runActivities env ops acts (brakeMotor s0) = s at hz ⊢
  refine ⟨hz, ?_, ?_⟩
  · intro hm
    have h1 : s.parameters.control_mode ≠ ControlMode.control_mode_raw_phase_pwm := by
      rcases hm with h | h | h | h | h <;> rw [h] <;> decide
    have h2 : s.parameters.control_mode ≠ ControlMode.control_mode_foc_current := by
      rcases hm with h | h | h | h | h <;> rw [h] <;> decide
    have hsp : currentSetpoints s = (0, s.parameters.torque_sp / 0) := by
      simp [currentSetpoints, h2, hz]
    refine ⟨by simp [torqueDivisor, h1, h2, hz], hsp, ?_⟩
    intro h3
    rw [runCurrentControl_foc_newCalls env ops s h1 h3]
    simp [currentComputeCalls, hsp]
  · intro hm
    rcases hm with h | h <;> simp [torqueDivisor, h]

/-- Witness for C20: after `brakeMotor` on the sample state, `resetControlTimeout` and a
command that selects Torque mode, the divisor of line 316 is 0. -/
theorem C20_division_by_zero_after_brake_witness :
    torqueDivisor (runActivities sampleEnv samplePIDOps
      [Activity.core (CoreOp.resetControlTimeout 6000),
       Activity.command (fun p => { p with control_mode := ControlMode.control_mode_torque })]
      (brakeMotor (sampleState ControlMode.control_mode_velocity
        EncoderMode.encoder_mode_as5047d))) = some 0 :=
  ((C20_division_by_zero_after_brake sampleEnv samplePIDOps
    (sampleState ControlMode.control_mode_velocity EncoderMode.encoder_mode_as5047d)
    [Activity.core (CoreOp.resetControlTimeout 6000),
     Activity.command (fun p => { p with control_mode := ControlMode.control_mode_torque })]).2.1
    (Or.inr (Or.inl rfl))).1

/-! ### MLX90363 refresh cadence -/

theorem watchdogCheck_results (env : Env F) (now : Nat) (s : State F P) :
    (watchdogCheck env now s).results = s.results := by
  unfold watchdogCheck; split_ifs <;> rfl

theorem watchdogCheck_cycles (env : Env F) (now : Nat) (s : State F P) :
    (watchdogCheck env now s).cycles_since_update = s.cycles_since_update := by
  unfold watchdogCheck; split_ifs <;> rfl

theorem applyExternal_results (e : External F) (s : State F P) :
    (applyExternal e s).results = s.results := by
  unfold applyExternal; split <;> rfl

theorem applyExternal_cycles (e : External F) (s : State F P) :
    (applyExternal e s).cycles_since_update = s.cycles_since_update := by
  unfold applyExternal; split <;> rfl

theorem runPositionControl_cycles (ops : PIDOps F P) (s : State F P) :
    (runPositionControl ops s).cycles_since_update = s.cycles_since_update := by
  unfold runPositionControl; split <;> rfl

theorem runVelocityControl_cycles (ops : PIDOps F P) (s : State F P) :
    (runVelocityControl ops s).cycles_since_update = s.cycles_since_update := by
  unfold runVelocityControl; split <;> rfl

theorem runCurrentControl_cycles (env : Env F) (ops : PIDOps F P) (s : State F P) :
    (runCurrentControl env ops s).cycles_since_update = s.cycles_since_update := by
  unfold runCurrentControl; split_ifs <;> rfl

theorem runCurrentControl_encoder_mode (env : Env F) (ops : PIDOps F P) (s : State F P) :
    (runCurrentControl env ops s).results.encoder_mode = s.results.encoder_mode := by
  unfold runCurrentControl; split_ifs <;> rfl

theorem controlCycle_encoder_mode (env : Env F) (ops : PIDOps F P) (inp : CycleInput F)
    (s : State F P) :
    (controlCycle env ops inp s).results.encoder_mode = s.results.encoder_mode := by
  simp only [controlCycle, afterWatchdog, runCurrentControl_encoder_mode,
    runVelocityControl_results, runPositionControl_results]
  show (watchdogCheck env inp.now s).results.encoder_mode = _
  rw [watchdogCheck_results]

theorem controlCycle_cycles (env : Env F) (ops : PIDOps F P) (inp : CycleInput F)
    (s : State F P) :
    (controlCycle env ops inp s).cycles_since_update = nextCyclesSinceUpdate s := by
  simp only [controlCycle, afterWatchdog, runCurrentControl_cycles, runVelocityControl_cycles,
    runPositionControl_cycles]
  show nextCyclesSinceUpdate (watchdogCheck env inp.now s) = _
  simp only [nextCyclesSinceUpdate, mlxRefresh, watchdogCheck_results, watchdogCheck_cycles]

theorem runCycles_append (env : Env F) (ops : PIDOps F P)
    (a b : List (External F × CycleInput F)) :
    ∀ s : State F P, runCycles env ops (a ++ b) s = runCycles env ops b (runCycles env ops a s) := by
  induction a with
  | nil => intro s; rfl
  | cons x rest ih =>
    intro s
    obtain ⟨e, inp⟩ := x
    exact ih _

theorem runCycles_mlx_counter (env : Env F) (ops : PIDOps F P) (s : State F P)
    (h0 : s.cycles_since_update = 0)
    (hm : s.results.encoder_mode = EncoderMode.encoder_mode_mlx90363)
    (run : List (External F × CycleInput F)) :
    (runCycles env ops run s).results.encoder_mode = EncoderMode.encoder_mode_mlx90363 ∧
    (runCycles env ops run s).cycles_since_update =
      if run.length = 0 then 0 else (((run.length - 1) % 20 + 1 : Nat) : Int) := by
  induction run using List.reverseRecOn with
  | nil => exact ⟨hm, by simpa using h0⟩
  | append_singleton rest x ih =>
    obtain ⟨e, inp⟩ := x
    rw [runCycles_append]
    show (controlCycle env ops inp (applyExternal e (runCycles env ops rest s))).results.encoder_mode
        = _ ∧
      (controlCycle env ops inp (applyExternal e (runCycles env ops rest s))).cycles_since_update
        = _
    rw [controlCycle_encoder_mode, controlCycle_cycles]
    have hmode : (applyExternal e (runCycles env ops rest s)).results.encoder_mode =
        EncoderMode.encoder_mode_mlx90363 := by
      rw [applyExternal_results]; exact ih.1
    refine ⟨hmode, ?_⟩
    simp only [nextCyclesSinceUpdate, hmode, mlxRefresh, applyExternal_cycles, ih.2,
      List.length_append, List.length_singleton]
    by_cases hn : rest.length = 0
    · simp [hn]
    · simp only [hn, if_false, decide_eq_true_eq]
      have h1 : rest.length + 1 ≠ 0 := by omega
      simp only [h1, if_false]
      split_ifs <;> omega

/-- C18: start from `cycles_since_update = 0` in MLX90363 mode and run any number of control
cycles; let `k` be one more than their number, so that the next `estimateState` call is the
`k`-th.  At the start of that call the counter lies in `0..20`, and the call harvests a
sensor result and issues the next request exactly when `k > 1` and `k mod 20 = 1`
(`k = 21, 41, 61, ...`); in every other call no encoder method is called and the stored raw
value is kept. -/
theorem C18_mlx_refresh_cadence (env : Env F) (ops : PIDOps F P) (s : State F P)
    (h0 : s.cycles_since_update = 0)
    (hm : s.results.encoder_mode = EncoderMode.encoder_mode_mlx90363)
    (run : List (External F × CycleInput F)) (e : External F) (inp : CycleInput F) :
    (0 ≤ (watchdogCheck env inp.now
        (applyExternal e (runCycles env ops run s))).cycles_since_update ∧
      (watchdogCheck env inp.now
        (applyExternal e (runCycles env ops run s))).cycles_since_update ≤ 20) ∧
    (mlxRefresh (watchdogCheck env inp.now (applyExternal e (runCycles env ops run s))) = true ↔
      1 < run.length + 1 ∧ (run.length + 1) % 20 = 1) ∧
    (1 < run.length + 1 ∧ (run.length + 1) % 20 = 1 →
      encoderCalls (watchdogCheck env inp.now (applyExternal e (runCycles env ops run s))) =
        [(Call.mlx90363_getAsyncExchangeMessageResultI : Call F),
         Call.mlx90363_startAsyncExchangeMessageI]) ∧
    (¬ (1 < run.length + 1 ∧ (run.length + 1) % 20 = 1) →
      encoderCalls (watchdogCheck env inp.now (applyExternal e (runCycles env ops run s))) =
        ([] : List (Call F)) ∧
      (estimateState env inp (watchdogCheck env inp.now
        (applyExternal e (runCycles env ops run s)))).results.raw_enc_value =
        (runCycles env ops run s).results.raw_enc_value) := by
  have hinv := runCycles_mlx_counter env ops s h0 hm run
  have hres : (watchdogCheck env inp.now (applyExternal e (runCycles env ops run s))).results =
      (runCycles env ops run s).results := by
    rw [watchdogCheck_results, applyExternal_results]
  have hcyc : (watchdogCheck env inp.now
      (applyExternal e (runCycles env ops run s))).cycles_since_update =
      if run.length = 0 then 0 else (((run.length - 1) % 20 + 1 : Nat) : Int) := by
    rw [watchdogCheck_cycles, applyExternal_cycles]; exact hinv.2
  have hmode : (watchdogCheck env inp.now
      (applyExternal e (runCycles env ops run s))).results.encoder_mode =
      EncoderMode.encoder_mode_mlx90363 := by
    rw [hres]; exact hinv.1
  have href : mlxRefresh (watchdogCheck env inp.now
      (applyExternal e (runCycles env ops run s))) = true ↔
      1 < run.length + 1 ∧ (run.length + 1) % 20 = 1 := by
    simp only [mlxRefresh, hcyc, decide_eq_true_eq]
    split_ifs <;> omega
  refine ⟨?_, href, ?_, ?_⟩
  · rw [hcyc]
    split_ifs <;> omega
  · intro hk
    simp only [encoderCalls, hmode, href.mpr hk, if_true]
  · intro hk
    have hno : mlxRefresh (watchdogCheck env inp.now
        (applyExternal e (runCycles env ops run s))) = false := by
      rw [← Bool.not_eq_true]
      exact fun h => hk (href.mp h)
    constructor
    · simp [encoderCalls, hmode, hno]
    · show readRawEncValue env inp _ = _
      simp only [readRawEncValue, hmode, hno]
      rw [hres]
      simp

/-- Witness for C18: the sample state in MLX90363 mode with the counter reset to 0; the
first call does not refresh and the 21st does. -/
theorem C18_mlx_refresh_cadence_witness :
    encoderCalls (watchdogCheck sampleEnv sampleInput.now
      (applyExternal sampleExternal
        (runCycles sampleEnv samplePIDOps []
          { sampleState ControlMode.control_mode_torque EncoderMode.encoder_mode_mlx90363 with
            cycles_since_update := 0 }))) = ([] : List (Call ℚ)) ∧
    encoderCalls (watchdogCheck sampleEnv sampleInput.now
      (applyExternal sampleExternal
        (runCycles sampleEnv samplePIDOps (List.replicate 20 (sampleExternal, sampleInput))
          { sampleState ControlMode.control_mode_torque EncoderMode.encoder_mode_mlx90363 with
            cycles_since_update := 0 }))) =
      [(Call.mlx90363_getAsyncExchangeMessageResultI : Call ℚ),
       Call.mlx90363_startAsyncExchangeMessageI] :=
  ⟨((C18_mlx_refresh_cadence sampleEnv samplePIDOps
      { sampleState ControlMode.control_mode_torque EncoderMode.encoder_mode_mlx90363 with
        cycles_since_update := 0 } rfl rfl [] sampleExternal sampleInput).2.2.2
      (by decide)).1,
   (C18_mlx_refresh_cadence sampleEnv samplePIDOps
      { sampleState ControlMode.control_mode_torque EncoderMode.encoder_mode_mlx90363 with
        cycles_since_update := 0 } rfl rfl (List.replicate 20 (sampleExternal, sampleInput))
      sampleExternal sampleInput).2.2.1 (by decide)⟩

/-! ### Position and PositionVelocity modes -/

theorem runPositionControl_active (ops : PIDOps F P) (s : State F P)
    (h : positionActive s.parameters.control_mode = true) :
    runPositionControl ops s =
      { s with
        pid_position := (ops.compute (positionPIDConfigured ops s)).2
        parameters :=
          { s.parameters with velocity_sp := (ops.compute (positionPIDConfigured ops s)).1 }
        trace := s.trace ++
          [Call.pid PIDName.pid_position (PIDCall.setMode PIDMode.AUTO_MODE),
           Call.pid PIDName.pid_position
             (PIDCall.setTunings s.calibration.position_kp s.calibration.position_ki 0),
           Call.pid PIDName.pid_position (PIDCall.setInputLimits (-1) 1),
           Call.pid PIDName.pid_position
             (PIDCall.setOutputLimits (-s.calibration.velocity_limit)
               s.calibration.velocity_limit),
           Call.pid PIDName.pid_position (PIDCall.setSetPoint 0),
           Call.pid PIDName.pid_position
             (PIDCall.setProcessValue (s.results.rotor_pos - s.parameters.position_sp)),
           Call.pid PIDName.pid_position (PIDCall.setBias 0),
           Call.pid PIDName.pid_position PIDCall.compute] } := by
  simp [runPositionControl, h]

theorem runVelocityControl_active (ops : PIDOps F P) (s : State F P)
    (h : velocityActive s.parameters.control_mode = true) :
    runVelocityControl ops s =
      { s with
        pid_velocity := (ops.compute (velocityPIDConfigured ops s)).2
        parameters :=
          { s.parameters with torque_sp := (ops.compute (velocityPIDConfigured ops s)).1 }
        trace := s.trace ++
          [Call.pid PIDName.pid_velocity (PIDCall.setMode PIDMode.AUTO_MODE),
           Call.pid PIDName.pid_velocity
             (PIDCall.setTunings s.calibration.velocity_kp s.calibration.velocity_ki 0),
           Call.pid PIDName.pid_velocity (PIDCall.setInputLimits (-40) 40),
           Call.pid PIDName.pid_velocity
             (PIDCall.setOutputLimits (-s.calibration.torque_limit) s.calibration.torque_limit),
           Call.pid PIDName.pid_velocity (PIDCall.setSetPoint s.parameters.velocity_sp),
           Call.pid PIDName.pid_velocity (PIDCall.setProcessValue s.results.rotor_vel),
           Call.pid PIDName.pid_velocity (PIDCall.setBias 0),
           Call.pid PIDName.pid_velocity PIDCall.compute] } := by
  simp [runVelocityControl, h]

theorem withControlMode_same (m : ControlMode) (s : State F P)
    (h : s.parameters.control_mode = m) : withControlMode m s = s := by
  cases s with
  | mk c p r a b d e f g t =>
    cases p
    simp only [withControlMode] at h ⊢
    subst h
    rfl

theorem runPositionControl_withControlMode (ops : PIDOps F P) (s : State F P)
    (m n : ControlMode) (h : positionActive m = positionActive n) :
    runPositionControl ops (withControlMode m s) =
      withControlMode m (runPositionControl ops (withControlMode n s)) := by
  cases hn : positionActive n <;>
    simp [runPositionControl, withControlMode, positionPIDConfigured, h, hn]

theorem runVelocityControl_withControlMode (ops : PIDOps F P) (s : State F P)
    (m n : ControlMode) (h : velocityActive m = velocityActive n) :
    runVelocityControl ops (withControlMode m s) =
      withControlMode m (runVelocityControl ops (withControlMode n s)) := by
  cases hn : velocityActive n <;>
    simp [runVelocityControl, withControlMode, velocityPIDConfigured, h, hn]

theorem runCurrentControl_withControlMode (env : Env F) (ops : PIDOps F P) (s : State F P)
    (m n : ControlMode)
    (hm1 : m ≠ ControlMode.control_mode_raw_phase_pwm)
    (hm2 : m ≠ ControlMode.control_mode_pwm_drive)
    (hm3 : m ≠ ControlMode.control_mode_foc_current)
    (hn1 : n ≠ ControlMode.control_mode_raw_phase_pwm)
    (hn2 : n ≠ ControlMode.control_mode_pwm_drive)
    (hn3 : n ≠ ControlMode.control_mode_foc_current) :
    runCurrentControl env ops (withControlMode m s) =
      withControlMode m (runCurrentControl env ops (withControlMode n s)) := by
  rw [runCurrentControl_foc env ops (withControlMode m s) hm1 hm2,
    runCurrentControl_foc env ops (withControlMode n s) hn1 hn2]
  simp [withControlMode, idPIDConfigured, iqPIDConfigured, idPIDArmed, iqPIDArmed,
    currentSetpoints, measuredCurrents, rotorAngle, currentArmCalls, currentComputeCalls,
    dutyCalls, dutyCycles, normVoltages, commandVoltages, hm2, hm3, hn2, hn3]

theorem runPositionControl_velocity_sp_overwritten (ops : PIDOps F P) (s : State F P)
    (v : F) (h : positionActive s.parameters.control_mode = true) :
    runPositionControl ops { s with parameters := { s.parameters with velocity_sp := v } } =
      runPositionControl ops s := by
  simp [runPositionControl, positionPIDConfigured, h]

/-- C19: for every state, the cascade `runPositionControl`, `runVelocityControl`,
`runCurrentControl` run in PositionVelocity mode yields the state it yields in Position
mode, except for the stored `control_mode` itself: the same PID objects, the same
`velocity_sp` and `torque_sp`, the same `results` and the same trace of PID and gate driver
calls (hence the same duty outputs).  In PositionVelocity mode the incoming `velocity_sp`
has no effect on the result. -/
theorem C19_position_modes_equivalent (env : Env F) (ops : PIDOps F P) (s : State F P) :
    runCurrentControl env ops (runVelocityControl ops (runPositionControl ops
        (withControlMode ControlMode.control_mode_position_velocity s))) =
      withControlMode ControlMode.control_mode_position_velocity
        (runCurrentControl env ops (runVelocityControl ops (runPositionControl ops
          (withControlMode ControlMode.control_mode_position s)))) ∧
    (runCurrentControl env ops (runVelocityControl ops (runPositionControl ops
        (withControlMode ControlMode.control_mode_position_velocity s)))).trace =
      (runCurrentControl env ops (runVelocityControl ops (runPositionControl ops
        (withControlMode ControlMode.control_mode_position s)))).trace ∧
    (runCurrentControl env ops (runVelocityControl ops (runPositionControl ops
        (withControlMode ControlMode.control_mode_position_velocity s)))).parameters.velocity_sp =
      (runCurrentControl env ops (runVelocityControl ops (runPositionControl ops
        (withControlMode ControlMode.control_mode_position s)))).parameters.velocity_sp ∧
    (runCurrentControl env ops (runVelocityControl ops (runPositionControl ops
        (withControlMode ControlMode.control_mode_position_velocity s)))).parameters.torque_sp =
      (runCurrentControl env ops (runVelocityControl ops (runPositionControl ops
        (withControlMode ControlMode.control_mode_position s)))).parameters.torque_sp ∧
    (∀ v : F,
      runCurrentControl env ops (runVelocityControl ops (runPositionControl ops
        (withControlMode ControlMode.control_mode_position_velocity
          { s with parameters := { s.parameters with velocity_sp := v } }))) =
      runCurrentControl env ops (runVelocityControl ops (runPositionControl ops
        (withControlMode ControlMode.control_mode_position_velocity s)))) := by
  have hmain : runCurrentControl env ops (runVelocityControl ops (runPositionControl ops
        (withControlMode ControlMode.control_mode_position_velocity s))) =
      withControlMode ControlMode.control_mode_position_velocity
        (runCurrentControl env ops (runVelocityControl ops (runPositionControl ops
          (withControlMode ControlMode.control_mode_position s)))) := by
    rw [runPositionControl_withControlMode ops s ControlMode.control_mode_position_velocity
        ControlMode.control_mode_position rfl,
      runVelocityControl_withControlMode ops _ ControlMode.control_mode_position_velocity
        ControlMode.control_mode_position rfl,
      runCurrentControl_withControlMode env ops _ ControlMode.control_mode_position_velocity
        ControlMode.control_mode_position (by decide) (by decide) (by decide) (by decide)
        (by decide) (by decide)]
    have h1 : withControlMode ControlMode.control_mode_position
        (runPositionControl ops (withControlMode ControlMode.control_mode_position s)) =
        runPositionControl ops (withControlMode ControlMode.control_mode_position s) :=
      withControlMode_same _ _ (by rw [runPositionControl_control_mode]; rfl)
    rw [h1]
    have h2 : withControlMode ControlMode.control_mode_position
        (runVelocityControl ops
          (runPositionControl ops (withControlMode ControlMode.control_mode_position s))) =
        runVelocityControl ops
          (runPositionControl ops (withControlMode ControlMode.control_mode_position s)) :=
      withControlMode_same _ _ (by
        rw [runVelocityControl_control_mode, runPositionControl_control_mode]; rfl)
    rw [h2]
  refine ⟨hmain, by rw [hmain]; rfl, by rw [hmain]; rfl, by rw [hmain]; rfl, ?_⟩
  intro v
  have hv := runPositionControl_velocity_sp_overwritten ops
    (withControlMode ControlMode.control_mode_position_velocity s) v rfl
  have hcomm : withControlMode ControlMode.control_mode_position_velocity
      { s with parameters := { s.parameters with velocity_sp := v } } =
      { withControlMode ControlMode.control_mode_position_velocity s with
        parameters :=
          { (withControlMode ControlMode.control_mode_position_velocity s).parameters with
            velocity_sp := v } } := rfl
  rw [hcomm, hv]

/-! ### ADC averaging -/

theorem foldl_add_mod_eq_sum (M : Nat) (f : Nat → Nat) :
    ∀ n : Nat, ((List.range n).map f).sum < M →
      (List.range n).foldl (fun acc i => (acc + f i) % M) 0 = ((List.range n).map f).sum := by
  intro n
  induction n with
  | zero => intro _; rfl
  | succ n ih =>
    intro h
    rw [List.range_succ, List.map_append, List.sum_append] at h
    simp only [List.map_cons, List.map_nil, List.sum_cons, List.sum_nil, Nat.add_zero] at h
    rw [List.range_succ, List.foldl_append, List.map_append, List.sum_append, ih (by omega)]
    simp only [List.foldl_cons, List.foldl_nil, List.map_cons, List.map_nil, List.sum_cons,
      List.sum_nil, Nat.add_zero]
    exact Nat.mod_eq_of_lt h

theorem sum_range_le (f : Nat → Nat) (B : Nat) (hf : ∀ i, f i ≤ B) :
    ∀ n : Nat, ((List.range n).map f).sum ≤ n * B := by
  intro n
  induction n with
  | zero => simp
  | succ n ih =>
    rw [List.range_succ, List.map_append, List.sum_append]
    simp only [List.map_cons, List.map_nil, List.sum_cons, List.sum_nil, Nat.add_zero]
    have := hf n
    rw [Nat.succ_mul]
    omega

theorem adcSum_no_overflow (env : Env F) (samples : Nat → Nat) (ch : Nat)
    (h16 : ∀ i, samples i < 65536) (hcount : env.ivsense_adc_samples_count < 65536)
    (huint : 2 ^ 32 ≤ env.uint_mod) : adcSum env samples ch = sampleSum env samples ch := by
  unfold adcSum sampleSum
  apply foldl_add_mod_eq_sum
  have hle := sum_range_le (fun i => samples (i * env.ivsense_channel_count + ch)) 65535
    (fun i => Nat.le_of_lt_succ (h16 (i * env.ivsense_channel_count + ch)))
    env.ivsense_adc_samples_count
  have hb : env.ivsense_adc_samples_count * 65535 ≤ 65535 * 65535 :=
    Nat.mul_le_mul_right _ (by omega)
  have h32 : (2 : Nat) ^ 32 = 4294967296 := by norm_num
  omega

/-- C17: with the sampler configured as the spec describes (`sampleCountFixed`: the divisor
`ivsense_samples_per_cycle` is the number `ivsense_adc_samples_count` of samples summed),
16-bit samples, fewer than 65536 samples per channel and an `unsigned int` of at least 32
bits, the accumulation of lines 194-202 does not overflow, and for each of the seven
channels `c` the value `estimateState` passes to the scale conversion is the arithmetic mean
of the samples `sample[i * ivsense_channel_count + c]`, `i < ivsense_adc_samples_count`:
their sum divided by the number of samples summed. -/
theorem C17_adc_average (env : Env F) (inp : CycleInput F) (s : State F P)
    (hfixed : sampleCountFixed env)
    (h16 : ∀ i, inp.ivsense_adc_samples i < 65536)
    (hcount : env.ivsense_adc_samples_count < 65536) (huint : 2 ^ 32 ≤ env.uint_mod) :
    (∀ ch : Nat, adcSum env inp.ivsense_adc_samples ch = sampleSum env inp.ivsense_adc_samples ch) ∧
    (∀ ch : Nat, adcAverage env inp.ivsense_adc_samples ch =
      (sampleSum env inp.ivsense_adc_samples ch : F) / (env.ivsense_adc_samples_count : F)) ∧
    ((estimateState env inp s).results.average_ia =
        env.adcValueToCurrent (sampleMean env inp.ivsense_adc_samples env.ivsense_channel_ia) ∧
      (estimateState env inp s).results.average_ib =
        env.adcValueToCurrent (sampleMean env inp.ivsense_adc_samples env.ivsense_channel_ib) ∧
      (estimateState env inp s).results.average_ic =
        env.adcValueToCurrent (sampleMean env inp.ivsense_adc_samples env.ivsense_channel_ic) ∧
      (estimateState env inp s).results.average_va =
        env.adcValueToVoltage (sampleMean env inp.ivsense_adc_samples env.ivsense_channel_va) ∧
      (estimateState env inp s).results.average_vb =
        env.adcValueToVoltage (sampleMean env inp.ivsense_adc_samples env.ivsense_channel_vb) ∧
      (estimateState env inp s).results.average_vc =
        env.adcValueToVoltage (sampleMean env inp.ivsense_adc_samples env.ivsense_channel_vc) ∧
      (estimateState env inp s).results.average_vin =
        env.adcValueToVoltage
          (sampleMean env inp.ivsense_adc_samples env.ivsense_channel_vin)) := by
  have hsum := fun ch => adcSum_no_overflow env inp.ivsense_adc_samples ch h16 hcount huint
  have hdiv : env.ivsense_samples_per_cycle = (env.ivsense_adc_samples_count : F) := hfixed
  have hmean : ∀ ch : Nat, adcAverage env inp.ivsense_adc_samples ch =
      sampleMean env inp.ivsense_adc_samples ch := by
    intro ch
    simp only [adcAverage, sampleMean, hsum ch, hdiv]
  have hia : (estimateState env inp s).results.average_ia =
      env.adcValueToCurrent (adcAverage env inp.ivsense_adc_samples env.ivsense_channel_ia) := rfl
  have hib : (estimateState env inp s).results.average_ib =
      env.adcValueToCurrent (adcAverage env inp.ivsense_adc_samples env.ivsense_channel_ib) := rfl
  have hic : (estimateState env inp s).results.average_ic =
      env.adcValueToCurrent (adcAverage env inp.ivsense_adc_samples env.ivsense_channel_ic) := rfl
  have hva : (estimateState env inp s).results.average_va =
      env.adcValueToVoltage (adcAverage env inp.ivsense_adc_samples env.ivsense_channel_va) := rfl
  have hvb : (estimateState env inp s).results.average_vb =
      env.adcValueToVoltage (adcAverage env inp.ivsense_adc_samples env.ivsense_channel_vb) := rfl
  have hvc : (estimateState env inp s).results.average_vc =
      env.adcValueToVoltage (adcAverage env inp.ivsense_adc_samples env.ivsense_channel_vc) := rfl
  have hvin : (estimateState env inp s).results.average_vin =
      env.adcValueToVoltage (adcAverage env inp.ivsense_adc_samples env.ivsense_channel_vin) := rfl
  refine ⟨hsum, ?_, ?_, ?_, ?_, ?_, ?_, ?_, ?_⟩
  · intro ch
    rw [hmean ch]
    rfl
  · rw [hia, hmean]
  · rw [hib, hmean]
  · rw [hic, hmean]
  · rw [hva, hmean]
  · rw [hvb, hmean]
  · rw [hvc, hmean]
  · rw [hvin, hmean]

/-- Witness for C17: the sample environment (2 samples per channel summed, divisor 2) with
all samples equal to 2048. -/
theorem C17_adc_average_witness :
    sampleCountFixed sampleEnv ∧
    (estimateState sampleEnv sampleInput
      (sampleState ControlMode.control_mode_torque
        EncoderMode.encoder_mode_as5047d)).results.average_vin =
      sampleEnv.adcValueToVoltage
        (sampleMean sampleEnv sampleInput.ivsense_adc_samples sampleEnv.ivsense_channel_vin) :=
  ⟨by norm_num [sampleCountFixed, sampleEnv],
   (C17_adc_average sampleEnv sampleInput
    (sampleState ControlMode.control_mode_torque EncoderMode.encoder_mode_as5047d)
    (by norm_num [sampleCountFixed, sampleEnv])
    (fun _ => by norm_num [sampleInput]) (by decide) (by decide)).2.2.2.2.2.2.2.2⟩

/-! ### Persistence of braking -/

theorem elapsedTicks_clockReading (env : Env F) (last t : Nat) (hlast : last < env.systime_mod)
    (ht : t < env.systime_mod) : elapsedTicks env (clockReading env last t) last = t := by
  unfold elapsedTicks clockReading
  by_cases h : last + t < env.systime_mod
  · rw [Nat.mod_eq_of_lt h]
    have h1 : ((last + t : Nat) : Int) - (last : Int) = (t : Int) := by push_cast; ring
    rw [h1, Int.emod_eq_of_lt (by omega) (by exact_mod_cast ht)]
    simp
  · have hge : env.systime_mod ≤ last + t := by omega
    have hmod : (last + t) % env.systime_mod = last + t - env.systime_mod := by
      rw [Nat.mod_eq_sub_mod hge, Nat.mod_eq_of_lt (by omega)]
    rw [hmod]
    have h1 : ((last + t - env.systime_mod : Nat) : Int) - (last : Int) =
        (t : Int) - (env.systime_mod : Int) := by
      rw [Nat.cast_sub hge]; push_cast; ring
    rw [h1, ← Int.add_emod_self, sub_add_cancel,
      Int.emod_eq_of_lt (by omega) (by exact_mod_cast ht)]
    simp

theorem applyExternal_no_liveness (e : External F) (s : State F P) (h : e.liveness = none) :
    applyExternal e s =
      { s with
        parameters := e.write_parameters s.parameters
        calibration := e.write_calibration s.calibration } := by
  simp [applyExternal, h]

theorem controlCycle_last_reset (env : Env F) (ops : PIDOps F P) (inp : CycleInput F)
    (s : State F P) :
    (controlCycle env ops inp s).last_control_timeout_reset = s.last_control_timeout_reset := by
  have h1 : ∀ t : State F P, (runCurrentControl env ops t).last_control_timeout_reset =
      t.last_control_timeout_reset := by
    intro t; unfold runCurrentControl; split_ifs <;> rfl
  have h2 : ∀ t : State F P, (runVelocityControl ops t).last_control_timeout_reset =
      t.last_control_timeout_reset := by
    intro t; unfold runVelocityControl; split <;> rfl
  have h3 : ∀ t : State F P, (runPositionControl ops t).last_control_timeout_reset =
      t.last_control_timeout_reset := by
    intro t; unfold runPositionControl; split <;> rfl
  have h4 : (watchdogCheck env inp.now s).last_control_timeout_reset =
      s.last_control_timeout_reset := by
    unfold watchdogCheck; split_ifs <;> rfl
  simp only [controlCycle, afterWatchdog, h1, h2, h3]
  exact h4

theorem controlCycle_control_timeout (env : Env F) (ops : PIDOps F P) (inp : CycleInput F)
    (s : State F P) :
    (controlCycle env ops inp s).calibration.control_timeout =
      s.calibration.control_timeout := by
  simp only [controlCycle, afterWatchdog, runCurrentControl_calibration,
    runVelocityControl_calibration, runPositionControl_calibration, estimateState_calibration]
  rcases watchdogCheck_calibration env inp.now s with h | h
  · rw [h]
  · rw [h]; rfl

theorem runCycles_watchdog_inputs (env : Env F) (ops : PIDOps F P)
    (run : List (External F × CycleInput F)) :
    ∀ s : State F P,
      (∀ x ∈ run, x.1.liveness = none ∧
        ∀ c : Calibration F, (x.1.write_calibration c).control_timeout = c.control_timeout) →
      (runCycles env ops run s).last_control_timeout_reset = s.last_control_timeout_reset ∧
      (runCycles env ops run s).calibration.control_timeout =
        s.calibration.control_timeout := by
  induction run with
  | nil => intro s _; exact ⟨rfl, rfl⟩
  | cons x rest ih =>
    intro s h
    obtain ⟨e, inp⟩ := x
    have hx := h (e, inp) (List.mem_cons_self _ _)
    have hrest := ih (controlCycle env ops inp (applyExternal e s))
      (fun y hy => h y (List.mem_cons_of_mem _ hy))
    show (runCycles env ops rest (controlCycle env ops inp (applyExternal e s))).last_control_timeout_reset
        = _ ∧
      (runCycles env ops rest (controlCycle env ops inp (applyExternal e s))).calibration.control_timeout
        = _
    rw [hrest.1, hrest.2, controlCycle_last_reset, controlCycle_control_timeout,
      applyExternal_no_liveness e s hx.1]
    exact ⟨rfl, hx.2 _⟩

/-- C16 (as amended): let `control_timeout = T` be non-zero and consider a run of control
cycles during which `resetControlTimeout` is not called, the command layer does not change
`control_timeout`, and each cycle takes place `t` ticks after the last reset with
`MS2ST(T) <= t` and `t` below the number of values of `systime_t` (the clock reading is
`(last + t)` modulo that number).  Then the watchdog check fires in every cycle of the run,
and after each check the d/q setpoints are 0 and the mode is FocCurrent, whatever the
command layer wrote to `parameters` between cycles.  The loop does not exit: a further cycle
is always run after the run. -/
theorem C16_braking_persists_amended (env : Env F) (ops : PIDOps F P) (s : State F P)
    (hT : s.calibration.control_timeout ≠ 0)
    (hlast : s.last_control_timeout_reset < env.systime_mod)
    (run : List (External F × CycleInput F))
    (hrun : ∀ x ∈ run, x.1.liveness = none ∧
      (∀ c : Calibration F, (x.1.write_calibration c).control_timeout = c.control_timeout) ∧
      ∃ t : Nat, env.MS2ST s.calibration.control_timeout ≤ t ∧ t < env.systime_mod ∧
        x.2.now = clockReading env s.last_control_timeout_reset t) :
    (∀ (pre post : List (External F × CycleInput F)) (e : External F) (inp : CycleInput F),
      run = pre ++ (e, inp) :: post →
      watchdogExpired env inp.now (applyExternal e (runCycles env ops pre s)) = true ∧
      (watchdogCheck env inp.now
        (applyExternal e (runCycles env ops pre s))).parameters.foc_d_current_sp = 0 ∧
      (watchdogCheck env inp.now
        (applyExternal e (runCycles env ops pre s))).parameters.foc_q_current_sp = 0 ∧
      (watchdogCheck env inp.now
        (applyExternal e (runCycles env ops pre s))).parameters.control_mode =
        ControlMode.control_mode_foc_current) ∧
    (∀ x : External F × CycleInput F,
      runCycles env ops (run ++ [x]) s =
        controlCycle env ops x.2 (applyExternal x.1 (runCycles env ops run s))) := by
  constructor
  · intro pre post e inp hsplit
    have hmem : (e, inp) ∈ run := by rw [hsplit]; simp
    obtain ⟨hlive, hcal, t, ht1, ht2, hnow⟩ := hrun (e, inp) hmem
    have hpre := runCycles_watchdog_inputs env ops pre s (fun x hx => by
      have hx' : x ∈ run := by rw [hsplit]; exact List.mem_append_left _ hx
      exact ⟨(hrun x hx').1, (hrun x hx').2.1⟩)
    have hext := applyExternal_no_liveness e (runCycles env ops pre s) hlive
    have hl : (applyExternal e (runCycles env ops pre s)).last_control_timeout_reset =
        s.last_control_timeout_reset := by
      rw [hext]; exact hpre.1
    have hc : (applyExternal e (runCycles env ops pre s)).calibration.control_timeout =
        s.calibration.control_timeout := by
      rw [hext]
      show (e.write_calibration _).control_timeout = _
      rw [hcal]; exact hpre.2
    have hexp : watchdogExpired env inp.now (applyExternal e (runCycles env ops pre s)) = true := by
      have hel : elapsedTicks env inp.now s.last_control_timeout_reset = t := by
        rw [hnow]; exact elapsedTicks_clockReading env _ t hlast ht2
      simp only [watchdogExpired, hl, hc, hel, Bool.and_eq_true, decide_eq_true_eq]
      exact ⟨hT, ht1⟩
    rw [watchdogCheck_expired env inp.now _ hexp]
    exact ⟨hexp, rfl, rfl, rfl⟩
  · intro x
    rw [runCycles_append]
    rfl

/-- Witness for C16: the sample state (timeout 100 ms = 1000 ticks, last reset at 0) and two
cycles, 5000 and 7000 ticks after the reset, before each of which the command layer selects
RawPwm mode; after the second check the mode is FocCurrent. -/
theorem C16_braking_persists_amended_witness :
    (watchdogCheck sampleEnv (sampleInputAt 7000).now
      (applyExternal sampleRawCommand
        (runCycles sampleEnv samplePIDOps [(sampleRawCommand, sampleInputAt 5000)]
          (sampleState ControlMode.control_mode_raw_phase_pwm
            EncoderMode.encoder_mode_as5047d)))).parameters.control_mode =
      ControlMode.control_mode_foc_current :=
  ((C16_braking_persists_amended sampleEnv samplePIDOps
    (sampleState ControlMode.control_mode_raw_phase_pwm EncoderMode.encoder_mode_as5047d)
    (by decide) (by decide)
    [(sampleRawCommand, sampleInputAt 5000), (sampleRawCommand, sampleInputAt 7000)]
    (fun x hx => by
      simp only [List.mem_cons, List.mem_singleton, List.not_mem_nil, or_false] at hx
      rcases hx with rfl | rfl
      · exact ⟨rfl, fun _ => rfl, 5000, by decide, by decide, rfl⟩
      · exact ⟨rfl, fun _ => rfl, 7000, by decide, by decide, rfl⟩)).1
    [(sampleRawCommand, sampleInputAt 5000)] [] sampleRawCommand (sampleInputAt 7000) rfl).2.2.2

/-- C16, counterexample to the claim as stated: in the sample state (timeout 100 ms = 1000
ticks, `systime_t` of 32 bits, last reset at clock value 0) the check fires 5000 ticks after
the reset; `resetControlTimeout` is never called; the command layer then selects RawPwm mode
and a later cycle takes place `2^32 + 10` ticks after the reset.  The clock reads 10, the
unsigned difference is 10, the check does not fire and the mode after the check is RawPwm,
not FocCurrent. -/
theorem C16_braking_persists_counterexample :
    (sampleState ControlMode.control_mode_raw_phase_pwm
      EncoderMode.encoder_mode_as5047d).calibration.control_timeout = 100 ∧
    sampleEnv.MS2ST 100 ≤ 5000 ∧
    watchdogExpired sampleEnv (sampleInputAt 5000).now
      (applyExternal sampleExternal
        (sampleState ControlMode.control_mode_raw_phase_pwm
          EncoderMode.encoder_mode_as5047d)) = true ∧
    sampleRawCommand.liveness = none ∧
    sampleEnv.MS2ST 100 ≤ 2 ^ 32 + 10 ∧
    (sampleInputAt (2 ^ 32 + 10)).now = 10 ∧
    watchdogExpired sampleEnv (sampleInputAt (2 ^ 32 + 10)).now
      (applyExternal sampleRawCommand
        (runCycles sampleEnv samplePIDOps [(sampleExternal, sampleInputAt 5000)]
          (sampleState ControlMode.control_mode_raw_phase_pwm
            EncoderMode.encoder_mode_as5047d))) = false ∧
    (watchdogCheck sampleEnv (sampleInputAt (2 ^ 32 + 10)).now
      (applyExternal sampleRawCommand
        (runCycles sampleEnv samplePIDOps [(sampleExternal, sampleInputAt 5000)]
          (sampleState ControlMode.control_mode_raw_phase_pwm
            EncoderMode.encoder_mode_as5047d)))).parameters.control_mode =
      ControlMode.control_mode_raw_phase_pwm := by
  refine ⟨rfl, by decide, by decide, rfl, by decide, by decide, by decide, by decide⟩

end Theorems

end motor_driver
